import Mathlib

/-!
Verification of the rule-search subsystem of the modular-monolith catalog
server: the tokenizer, the scorer, the ranker and the result formatter,
together with the static catalog data they operate on.

Strings are modelled as Lean `String`s; the JavaScript string operations
used by the code (`toLowerCase`, `trim`, `trimEnd`, `includes`, `slice`)
are given explicit definitions over the character list of the string.
Scores are modelled as integers.
-/

namespace MonolithMcp

/-- ASCII lowering of one character, as `String.prototype.toLowerCase`
acts on the catalog's data. -/
def jsCharToLower (c : Char) : Char :=
  if 'A' ≤ c ∧ c ≤ 'Z' then Char.ofNat (c.toNat + 32) else c

/-- `String.prototype.toLowerCase`. -/
def jsToLower (s : String) : String :=
  ⟨s.data.map jsCharToLower⟩

/-- The whitespace characters trimmed by `String.prototype.trim`. -/
def isJsWhitespace (c : Char) : Bool :=
  c = ' ' || c = '\t' || c = '\n' || c = '\r' || c = '\x0b' || c = '\x0c'

/-- `String.prototype.trim`: drop whitespace from both ends. -/
def jsTrim (s : String) : String :=
  ⟨((s.data.dropWhile isJsWhitespace).reverse.dropWhile isJsWhitespace).reverse⟩

/-- `String.prototype.trimEnd`: drop whitespace from the right end. -/
def jsTrimEnd (s : String) : String :=
  ⟨(s.data.reverse.dropWhile isJsWhitespace).reverse⟩

/-- `s.includes(sub)`: `sub` occurs contiguously inside `s`. -/
def jsIncludes (s sub : String) : Bool :=
  decide (sub.data <:+: s.data)

/-- `s.slice(0, n)`: the first `n` characters of `s`. -/
def jsSlice0 (s : String) (n : Nat) : String :=
  ⟨s.data.take n⟩

/-- A labelled code example attached to a catalog entry. -/
structure CodeExample where
  label : String
  language : String
  code : String
deriving DecidableEq

/-- A cross-reference from a catalog entry to a clean-code principle. -/
structure CleanCodeReference where
  principleId : String
  relationship : String
  note : String
deriving DecidableEq

/-- An architecture rule of the static catalog.  The `category` is the
raw category string (one of the ten fixed values in the data). -/
structure ArchitectureRule where
  id : String
  name : String
  category : String
  description : String
  rationale : String
  examples : List CodeExample
  tags : List String
  cleanCodeRefs : List CleanCodeReference
  source : Option String := none
deriving DecidableEq

/-- An anti-pattern record of the static catalog: like a rule but with
no `rationale` and no `source`. -/
structure AntiPattern where
  id : String
  name : String
  category : String
  description : String
  examples : List CodeExample
  tags : List String
  cleanCodeRefs : List CleanCodeReference
deriving DecidableEq

/-- The static rule catalog, transcribed from the source data file. -/
def RULES : List ArchitectureRule := [
  ⟨"domain-centric-modules",
   "Domain-Centric Modules",
   "module-structure",
   "Organize modules around business domains, not technical layers. Each module represents a cohesive business capability (e.g. \x60orders/\x60, \x60payments/\x60, \x60users/\x60), not a layer (e.g. \x60controllers/\x60, \x60services/\x60, \x60repositories/\x60).",
   "Domain-centric organization aligns code structure with business understanding. When a business requirement changes, all related code lives in one place instead of being scattered across layers.",
   [⟨"Bad", "text", "src/\n  controllers/\n    orderController.ts\n    userController.ts\n  services/\n    orderService.ts\n    userService.ts\n  repositories/\n    orderRepository.ts\n    userRepository.ts"⟩,
    ⟨"Good", "text", "src/\n  modules/\n    orders/\n      order.service.ts\n      order.repository.ts\n      order.types.ts\n      index.ts\n    users/\n      user.service.ts\n      user.repository.ts\n      user.types.ts\n      index.ts"⟩],
   ["module", "structure", "domain", "organization", "vertical-slice"],
   [⟨"high-cohesion", "reinforces", "Domain-centric modules keep related code together, maximizing cohesion"⟩,
    ⟨"organize-for-change", "extends", "Business changes affect a single module instead of multiple layers"⟩],
   some "Kamil Grzybek — Modular Monolith"⟩,
  ⟨"vertical-slice-per-module",
   "Vertical Slice per Module",
   "module-structure",
   "Each module should contain all layers needed to fulfill its responsibility: API routes, services, repositories, types, and validation. A module is a self-contained vertical slice through the architecture.",
   "Vertical slices minimize cross-cutting changes. Adding a feature means working within one module directory rather than editing files across the entire project.",
   [⟨"Good", "text", "modules/orders/\n  order.routes.ts       # API layer\n  order.service.ts      # Business logic\n  order.repository.ts   # Data access\n  order.types.ts        # Domain types\n  order.validation.ts   # Input validation\n  index.ts              # Public API"⟩,
    ⟨"Bad", "text", "# Module split across layers - no vertical slice\nroutes/orders.ts\nservices/orders.ts\nmodels/orders.ts\n# Changes to \"orders\" require touching 3+ directories"⟩],
   ["module", "vertical-slice", "structure", "layers", "self-contained"],
   [⟨"single-responsibility-principle", "implements", "Each module has a single business responsibility with all needed layers"⟩],
   some "Jimmy Bogard — Vertical Slice Architecture"⟩,
  ⟨"standard-module-layout",
   "Standard Module Layout",
   "module-structure",
   "Every module follows a predictable layout with standard files: service (business logic), repository (data access), types (domain models), validation (input schemas), and index.ts (public API). Consistency across modules reduces cognitive load.",
   "A standard layout means developers know exactly where to find things in any module. New modules are quick to scaffold and review because the structure is familiar.",
   [⟨"Good", "typescript", "// Standard module layout - every module follows this\n// modules/\x7bname\x7d/\n//   \x7bname\x7d.service.ts     — Business logic\n//   \x7bname\x7d.repository.ts  — Data access\n//   \x7bname\x7d.types.ts       — Domain types & interfaces\n//   \x7bname\x7d.validation.ts  — Zod schemas for input\n//   \x7bname\x7d.routes.ts      — API routes (if applicable)\n//   index.ts              — Public API barrel export"⟩,
    ⟨"Bad", "text", "# Inconsistent layouts across modules\nmodules/orders/\n  handlers.ts\n  db.ts\n  helpers.ts\nmodules/users/\n  userService.ts\n  userModel.ts\n  utils/\n    validate.ts"⟩],
   ["module", "layout", "convention", "standard", "consistency"],
   [⟨"pick-one-word-per-concept", "extends", "Consistent naming across modules — same file names, same patterns"⟩],
   none⟩,
  ⟨"self-contained-initialization",
   "Self-Contained Initialization",
   "module-structure",
   "Each module handles its own composition and initialization. Services are wired together within the module, not by an external bootstrapper. The module\x27s index.ts creates and exports ready-to-use instances.",
   "Self-contained initialization means a module can be understood, tested, and replaced without understanding the global setup. It reduces coupling to the application\x27s bootstrap phase.",
   [⟨"Good", "typescript", "// modules/orders/index.ts\nimport \x7b OrderService \x7d from \"./order.service.js\";\nimport \x7b OrderRepository \x7d from \"./order.repository.js\";\nimport \x7b prisma \x7d from \"../../shared/prisma.js\";\n\nconst orderRepository = new OrderRepository(prisma);\nexport const orderService = new OrderService(orderRepository);\n\n// Public types\nexport type \x7b Order, CreateOrderInput \x7d from \"./order.types.js\";"⟩,
    ⟨"Bad", "typescript", "// app-bootstrap.ts — Centralizes ALL module wiring\nimport \x7b OrderService \x7d from \"./modules/orders/order.service.js\";\nimport \x7b OrderRepository \x7d from \"./modules/orders/order.repository.js\";\nimport \x7b UserService \x7d from \"./modules/users/user.service.js\";\n// ...dozens more imports from module internals\n\nconst orderRepo = new OrderRepository(prisma);\nconst orderService = new OrderService(orderRepo);\n// Every module\x27s internals exposed to the bootstrapper"⟩],
   ["module", "initialization", "composition", "self-contained", "bootstrap"],
   [⟨"separate-construction-from-use", "implements", "Module separates object construction (index.ts) from use (consumers import the public API)"⟩,
    ⟨"use-dependency-injection", "reinforces", "Dependencies are injected within the module\x27s composition root"⟩],
   none⟩,
  ⟨"define-public-api",
   "Define Public API",
   "module-boundaries",
   "Every module must expose its public API through an index.ts barrel file. Only types, functions, and instances exported from index.ts are part of the module\x27s contract. Everything else is an implementation detail.",
   "A well-defined public API is the foundation of module boundaries. It makes the contract explicit, enables independent evolution of internals, and prevents accidental coupling.",
   [⟨"Good", "typescript", "// modules/orders/index.ts — The module\x27s public contract\nexport \x7b orderService \x7d from \"./order.service.js\";\nexport type \x7b Order, CreateOrderInput \x7d from \"./order.types.js\";\nexport type \x7b OrderService \x7d from \"./order.service.js\";\n\n// NOT exported: OrderRepository, internal helpers, DB schemas"⟩,
    ⟨"Bad", "typescript", "// No index.ts — consumers import directly from internals\nimport \x7b OrderRepository \x7d from \"../orders/order.repository.js\";\nimport \x7b mapOrderToDTO \x7d from \"../orders/internal/mappers.js\";"⟩],
   ["boundary", "public-api", "barrel", "index", "contract", "encapsulation"],
   [⟨"data-abstraction", "reinforces", "Public API abstracts module internals — consumers see the interface, not the implementation"⟩,
    ⟨"interface-segregation-principle", "implements", "Module exposes only what consumers need, not everything it contains"⟩],
   some "Kamil Grzybek — Modular Monolith"⟩,
  ⟨"hide-implementation-details",
   "Hide Implementation Details",
   "module-boundaries",
   "Module internals (repositories, mappers, helpers, database schemas) must never be imported directly by other modules. Only the public API surface (index.ts exports) is accessible.",
   "Hiding implementation details allows modules to refactor freely without breaking consumers. It enforces loose coupling at the architectural level.",
   [⟨"Bad", "typescript", "// Direct import of another module\x27s internal file\nimport \x7b OrderRepository \x7d from \"../orders/order.repository.js\";\nimport \x7b hashPassword \x7d from \"../users/internal/crypto.js\";"⟩,
    ⟨"Good", "typescript", "// Import only from the module\x27s public API\nimport \x7b orderService \x7d from \"../orders/index.js\";\nimport type \x7b Order \x7d from \"../orders/index.js\";"⟩],
   ["boundary", "encapsulation", "implementation", "hiding", "internal"],
   [⟨"law-of-demeter", "extends", "Don\x27t reach into another module\x27s internals — talk to its public API"⟩,
    ⟨"avoid-inappropriate-intimacy", "reinforces", "Modules should not know each other\x27s internal structure"⟩],
   none⟩,
  ⟨"dto-at-boundaries",
   "DTOs at Boundaries",
   "module-boundaries",
   "Use Data Transfer Objects (DTOs) at module boundaries. Never pass internal entities or database models across module boundaries. DTOs represent the contract; internal models can change freely.",
   "DTOs decouple the module\x27s internal model from its public contract. Internal schema changes don\x27t break consumers as long as the DTO remains stable.",
   [⟨"Bad", "typescript", "// Exposing Prisma model directly\nexport function getOrder(id: string): Promise<PrismaOrder> \x7b\n  return prisma.order.findUnique(\x7b where: \x7b id \x7d \x7d);\n\x7d"⟩,
    ⟨"Good", "typescript", "// Return a DTO, not the internal model\nexport interface OrderDTO \x7b\n  id: string;\n  status: string;\n  totalCents: number;\n  createdAt: string;\n\x7d\n\nexport async function getOrder(id: string): Promise<OrderDTO | null> \x7b\n  const order = await prisma.order.findUnique(\x7b where: \x7b id \x7d \x7d);\n  return order ? toOrderDTO(order) : null;\n\x7d"⟩],
   ["boundary", "dto", "contract", "decoupling", "data-transfer"],
   [⟨"data-transfer-objects", "reinforces", "DTOs are the right tool for transferring data across module boundaries"⟩],
   none⟩,
  ⟨"stable-contracts",
   "Stable Contracts",
   "module-boundaries",
   "Public module contracts (exported types, function signatures) should be stable. Changes to public APIs require versioning or migration strategies. Breaking changes are communicated explicitly.",
   "Stable contracts allow modules to evolve independently. When a contract must change, explicit versioning prevents silent breakage across the codebase.",
   [⟨"Good", "typescript", "// Additive change — backwards compatible\nexport interface OrderDTO \x7b\n  id: string;\n  status: string;\n  totalCents: number;\n  // New field with optional to avoid breaking consumers\n  currency?: string;\n\x7d"⟩,
    ⟨"Bad", "typescript", "// Breaking change — renamed field without migration\nexport interface OrderDTO \x7b\n  id: string;\n  status: string;\n  // Was: totalCents, now: amountInCents — breaks all consumers\n  amountInCents: number;\n\x7d"⟩],
   ["boundary", "contract", "stability", "versioning", "backwards-compatible"],
   [⟨"open-closed-principle", "implements", "Module contracts are open for extension (new fields) but closed for modification (no breaking changes)"⟩],
   none⟩,
  ⟨"no-direct-module-imports",
   "No Direct Module Imports",
   "module-communication",
   "Modules NEVER import directly from another module\x27s internal files. All cross-module communication goes through the public API (index.ts). This is the most fundamental boundary rule.",
   "Direct imports create tight coupling. When module A imports module B\x27s internal file, any refactoring in B can break A. Public APIs provide a stable interface.",
   [⟨"Bad", "typescript", "// VIOLATION: importing internal file from another module\nimport \x7b OrderRepository \x7d from \"../orders/order.repository.js\";\nimport \x7b calculateTotal \x7d from \"../orders/helpers/pricing.js\";"⟩,
    ⟨"Good", "typescript", "// Correct: import from the module\x27s public API only\nimport \x7b orderService, type Order \x7d from \"../orders/index.js\";\n\nconst order = await orderService.getById(orderId);"⟩],
   ["communication", "import", "boundary", "coupling", "direct-import"],
   [⟨"avoid-inappropriate-intimacy", "implements", "Direct imports are the most common form of inappropriate intimacy between modules"⟩,
    ⟨"dependency-inversion-principle", "reinforces", "Depend on the module\x27s public interface, not its concrete internals"⟩],
   none⟩,
  ⟨"sync-via-service-interface",
   "Sync via Service Interface",
   "module-communication",
   "When module A needs data from module B synchronously, it calls B\x27s exposed service interface. The service is exported from B\x27s index.ts and used directly. This is appropriate for queries and reads.",
   "Service interfaces provide a clear, typed contract for synchronous communication. They\x27re simple, traceable, and suitable for read operations where immediate response is needed.",
   [⟨"Good", "typescript", "// modules/shipping/shipping.service.ts\nimport \x7b orderService \x7d from \"../orders/index.js\";\n\nexport class ShippingService \x7b\n  async calculateShipping(orderId: string) \x7b\n    // Sync call through order module\x27s public API\n    const order = await orderService.getById(orderId);\n    return this.computeRate(order.totalCents, order.address);\n  \x7d\n\x7d"⟩,
    ⟨"Bad", "typescript", "// WRONG: querying another module\x27s database directly\nimport \x7b prisma \x7d from \"../../shared/prisma.js\";\n\nexport class ShippingService \x7b\n  async calculateShipping(orderId: string) \x7b\n    const order = await prisma.order.findUnique(\x7b where: \x7b id: orderId \x7d \x7d);\n    return this.computeRate(order.totalCents, order.address);\n  \x7d\n\x7d"⟩],
   ["communication", "sync", "service", "interface", "query"],
   [⟨"law-of-demeter", "reinforces", "Talk to the service interface, don\x27t reach through to the database"⟩],
   none⟩,
  ⟨"async-via-events",
   "Async via Events",
   "module-communication",
   "For operations where module A needs to notify module B without waiting for a response, use an internal event bus. Events are fire-and-forget and enable loose coupling between modules.",
   "Events decouple the sender from the receiver. Module A doesn\x27t need to know who listens. This is ideal for side effects: sending emails, updating caches, triggering workflows.",
   [⟨"Good", "typescript", "// modules/orders/order.service.ts\nimport \x7b eventBus \x7d from \"../../shared/event-bus.js\";\n\nexport class OrderService \x7b\n  async createOrder(input: CreateOrderInput) \x7b\n    const order = await this.repository.create(input);\n\n    // Notify other modules without direct dependency\n    eventBus.emit(\"order.created\", \x7b\n      orderId: order.id,\n      userId: order.userId,\n      totalCents: order.totalCents,\n    \x7d);\n\n    return order;\n  \x7d\n\x7d\n\n// modules/notifications/notification.listener.ts\neventBus.on(\"order.created\", async (event) => \x7b\n  await sendOrderConfirmationEmail(event.userId, event.orderId);\n\x7d);"⟩,
    ⟨"Bad", "typescript", "// WRONG: direct call creates coupling\nimport \x7b notificationService \x7d from \"../notifications/index.js\";\nimport \x7b analyticsService \x7d from \"../analytics/index.js\";\nimport \x7b inventoryService \x7d from \"../inventory/index.js\";\n\nexport class OrderService \x7b\n  async createOrder(input: CreateOrderInput) \x7b\n    const order = await this.repository.create(input);\n    // Order module \"knows\" about all these modules\n    await notificationService.sendConfirmation(order);\n    await analyticsService.trackPurchase(order);\n    await inventoryService.decrementStock(order);\n    return order;\n  \x7d\n\x7d"⟩],
   ["communication", "async", "events", "event-bus", "fire-and-forget", "decoupling"],
   [⟨"open-closed-principle", "implements", "New listeners can be added without modifying the emitting module"⟩,
    ⟨"single-responsibility-principle", "reinforces", "The order module\x27s job is to create orders, not to manage all side effects"⟩],
   none⟩,
  ⟨"anti-corruption-layer",
   "Anti-Corruption Layer",
   "module-communication",
   "When integrating with another module or external system whose model differs from yours, introduce an Anti-Corruption Layer (ACL) that translates between the foreign model and your internal model.",
   "An ACL prevents foreign concepts from leaking into your module. If the external model changes, only the ACL needs updating — your business logic stays clean.",
   [⟨"Good", "typescript", "// modules/shipping/acl/order-translator.ts\nimport type \x7b Order \x7d from \"../../orders/index.js\";\nimport type \x7b ShippableItem \x7d from \"../shipping.types.js\";\n\n// Translates the orders module\x27s model to shipping\x27s model\nexport function toShippableItem(order: Order): ShippableItem \x7b\n  return \x7b\n    reference: order.id,\n    weightGrams: order.items.reduce((sum, i) => sum + i.weight, 0),\n    destination: order.shippingAddress,\n  \x7d;\n\x7d"⟩,
    ⟨"Bad", "typescript", "// Shipping logic uses Order types directly — foreign model leaks in\nexport class ShippingService \x7b\n  async ship(order: Order) \x7b\n    // Using order.items[0].product.category — deep coupling\n    if (order.items[0].product.category === \"fragile\") \x7b\n      // Shipping knows about product categories\n    \x7d\n  \x7d\n\x7d"⟩],
   ["communication", "acl", "anti-corruption", "translation", "adapter"],
   [⟨"data-abstraction", "implements", "ACL abstracts the foreign model, exposing only what the module needs"⟩],
   some "Eric Evans — Domain-Driven Design"⟩,
  ⟨"separate-module-data",
   "Separate Module Data",
   "data-isolation",
   "Each module owns its data. No other module may read or write another module\x27s database tables, collections, or storage directly. Cross-module data access goes through the owning module\x27s service.",
   "Data ownership is the strongest boundary. When modules share data directly, any schema change can cascade through the system. Service-mediated access provides a stable interface.",
   [⟨"Bad", "typescript", "// Shipping module directly queries orders table\nconst order = await prisma.order.findUnique(\x7b where: \x7b id: orderId \x7d \x7d);"⟩,
    ⟨"Good", "typescript", "// Shipping module asks orders module for the data\nimport \x7b orderService \x7d from \"../orders/index.js\";\nconst order = await orderService.getById(orderId);"⟩],
   ["data", "isolation", "ownership", "database", "separation"],
   [⟨"avoid-inappropriate-intimacy", "extends", "Data-level intimacy is the deepest form — modules must not access each other\x27s data stores"⟩],
   some "Sam Newman — Building Microservices"⟩,
  ⟨"no-cross-module-joins",
   "No Cross-Module Joins",
   "data-isolation",
   "Never perform database JOINs across tables owned by different modules. If you need combined data, query each module\x27s service separately and join in application code.",
   "Cross-module JOINs create invisible coupling at the database level. They break if either module\x27s schema changes and make future module extraction nearly impossible.",
   [⟨"Bad", "typescript", "// SQL JOIN across module boundaries\nconst result = await prisma.$queryRaw\x60\n  SELECT o.*, u.email\n  FROM orders o\n  JOIN users u ON o.user_id = u.id\n  WHERE o.status = \x27pending\x27\n\x60;"⟩,
    ⟨"Good", "typescript", "// Query each module separately, join in code\nconst pendingOrders = await orderService.getByStatus(\"pending\");\nconst userIds = [...new Set(pendingOrders.map(o => o.userId))];\nconst users = await userService.getByIds(userIds);\n\nconst enriched = pendingOrders.map(order => (\x7b\n  ...order,\n  userEmail: users.find(u => u.id === order.userId)?.email,\n\x7d));"⟩],
   ["data", "join", "query", "cross-module", "database", "isolation"],
   [⟨"single-responsibility-principle", "reinforces", "Each module manages its own data access — no shared queries"⟩],
   none⟩,
  ⟨"logical-schema-separation",
   "Logical Schema Separation",
   "data-isolation",
   "In a monolith with a single database (e.g., Prisma), use logical separation to indicate which module owns which tables. Use naming conventions, schema comments, or separate Prisma schema files per module.",
   "Even with a shared database, logical ownership makes it clear who is responsible for what. This prepares the system for future extraction if needed.",
   [⟨"Good", "prisma", "// schema.prisma — Logical separation with comments\n// === MODULE: orders ===\nmodel Order \x7b\n  id        String   @id @default(uuid())\n  status    String\n  totalCents Int\n  userId    String   // FK reference, not a Prisma relation\n  createdAt DateTime @default(now())\n\x7d\n\n// === MODULE: users ===\nmodel User \x7b\n  id    String @id @default(uuid())\n  email String @unique\n  name  String\n\x7d"⟩,
    ⟨"Bad", "prisma", "// No ownership indication — who owns what?\nmodel Order \x7b\n  id     String @id\n  user   User   @relation(fields: [userId], references: [id])\n  userId String\n\x7d\nmodel User \x7b\n  id     String  @id\n  orders Order[] // Bidirectional relation crosses module boundary\n\x7d"⟩],
   ["data", "schema", "prisma", "logical-separation", "naming"],
   [⟨"use-intention-revealing-names", "reinforces", "Schema comments and naming conventions reveal data ownership"⟩],
   none⟩,
  ⟨"data-ownership-principle",
   "Data Ownership Principle",
   "data-isolation",
   "The module that creates the data is responsible for its entire lifecycle: creation, reads, updates, deletion, and validation. Other modules request operations through the owning module\x27s service.",
   "Clear ownership prevents conflicting writes, inconsistent validation, and orphaned data. One module is the source of truth for each piece of data.",
   [⟨"Good", "typescript", "// Only the users module can create/update/delete users\n// modules/users/user.service.ts\nexport class UserService \x7b\n  async create(input: CreateUserInput): Promise<UserDTO> \x7b /* ... */ \x7d\n  async update(id: string, input: UpdateUserInput): Promise<UserDTO> \x7b /* ... */ \x7d\n  async deactivate(id: string): Promise<void> \x7b /* ... */ \x7d\n\x7d\n\n// Other modules call the service — never write to user tables directly"⟩,
    ⟨"Bad", "typescript", "// Admin module directly updates user table\n// modules/admin/admin.service.ts\nasync deactivateUser(userId: string) \x7b\n  await prisma.user.update(\x7b\n    where: \x7b id: userId \x7d,\n    data: \x7b active: false \x7d,\n  \x7d);\n\x7d"⟩],
   ["data", "ownership", "lifecycle", "crud", "source-of-truth"],
   [⟨"single-responsibility-principle", "reinforces", "One module responsible for each data entity\x27s lifecycle"⟩],
   none⟩,
  ⟨"acyclic-dependency-graph",
   "Acyclic Dependency Graph",
   "dependency-management",
   "The module dependency graph must be a Directed Acyclic Graph (DAG). No circular dependencies between modules. If A depends on B, B must never depend on A (directly or transitively).",
   "Circular dependencies make modules impossible to understand, test, or extract independently. They indicate unclear boundaries that need redesigning.",
   [⟨"Bad", "typescript", "// Circular: orders → users → orders\n// modules/orders/order.service.ts\nimport \x7b userService \x7d from \"../users/index.js\";\n\n// modules/users/user.service.ts\nimport \x7b orderService \x7d from \"../orders/index.js\"; // CYCLE!"⟩,
    ⟨"Good", "typescript", "// Break cycle with events or a shared interface\n// modules/orders/order.service.ts\nimport \x7b userService \x7d from \"../users/index.js\"; // OK: one direction\n\n// modules/users/user.service.ts\n// Does NOT import from orders. Uses events instead:\neventBus.on(\"order.created\", async (\x7b userId \x7d) => \x7b\n  await userService.incrementOrderCount(userId);\n\x7d);"⟩],
   ["dependency", "acyclic", "dag", "circular", "graph", "cycle"],
   [⟨"dependency-inversion-principle", "implements", "Break cycles by depending on abstractions (interfaces/events) instead of concrete modules"⟩],
   some "Robert C. Martin — Clean Architecture"⟩,
  ⟨"depend-on-abstractions",
   "Depend on Abstractions",
   "dependency-management",
   "Modules should depend on interfaces and types, not concrete implementations. When a module needs capability from another module, depend on the exported interface, not the concrete class.",
   "Depending on abstractions allows swapping implementations without changing consumers. It enables testing with mocks and reduces coupling between modules.",
   [⟨"Good", "typescript", "// modules/orders/order.types.ts\nexport interface PaymentGateway \x7b\n  charge(amount: number, currency: string): Promise<PaymentResult>;\n\x7d\n\n// modules/orders/order.service.ts\nexport class OrderService \x7b\n  constructor(private payment: PaymentGateway) \x7b\x7d\n\x7d\n\n// modules/payments/index.ts exports the implementation\nexport const paymentGateway: PaymentGateway = new StripePayment();"⟩,
    ⟨"Bad", "typescript", "// Direct dependency on concrete class\nimport \x7b StripePayment \x7d from \"../payments/stripe-payment.js\";\n\nexport class OrderService \x7b\n  private payment = new StripePayment(); // Tight coupling\n\x7d"⟩],
   ["dependency", "abstraction", "interface", "coupling", "inversion"],
   [⟨"dependency-inversion-principle", "reinforces", "High-level modules should not depend on low-level modules — both depend on abstractions"⟩,
    ⟨"open-closed-principle", "complements", "Abstraction-based deps allow extending behavior without modifying the consumer"⟩],
   none⟩,
  ⟨"dependency-direction",
   "Dependency Direction",
   "dependency-management",
   "Dependencies should flow in one direction: infrastructure → application → domain. Higher-level modules (domain) should never depend on lower-level modules (infrastructure).",
   "Unidirectional dependency flow makes the system predictable. Domain logic stays pure and testable, free from infrastructure concerns.",
   [⟨"Good", "text", "Dependency flow:\n  Routes (infra) → Service (app) → Types/Interfaces (domain)\n  Repository (infra) → implements → RepositoryInterface (domain)\n\nDomain layer has ZERO external dependencies."⟩,
    ⟨"Bad", "typescript", "// Domain type depending on infrastructure\nimport \x7b PrismaClient \x7d from \"@prisma/client\"; // WRONG in domain layer\n\nexport interface Order \x7b\n  prismaModel: PrismaClient; // Infrastructure leaking into domain\n\x7d"⟩],
   ["dependency", "direction", "flow", "layers", "domain", "infrastructure"],
   [⟨"separate-construction-from-use", "complements", "Infrastructure is constructed and injected — domain uses abstractions"⟩],
   some "Robert C. Martin — Clean Architecture"⟩,
  ⟨"thin-routes",
   "Thin Routes",
   "routes-and-controllers",
   "Route handlers should be thin: validate input, call the service, return response. No business logic, no direct database access, no complex transformations in the route.",
   "Thin routes keep the API layer as a simple adapter. Business logic in services is reusable and testable; business logic in routes is neither.",
   [⟨"Good", "typescript", "// Thin route: validate → call service → respond\napp.post(\"/orders\", async (req, res) => \x7b\n  const input = createOrderSchema.parse(req.body);\n  const order = await orderService.create(input);\n  res.status(201).json(order);\n\x7d);"⟩,
    ⟨"Bad", "typescript", "// Fat route: business logic inside the handler\napp.post(\"/orders\", async (req, res) => \x7b\n  const \x7b items, userId \x7d = req.body;\n  // Business logic that belongs in service:\n  const total = items.reduce((sum, i) => sum + i.price * i.qty, 0);\n  if (total > 10000) \x7b\n    await sendHighValueAlert(userId);\n  \x7d\n  const order = await prisma.order.create(\x7b\n    data: \x7b items, userId, total, status: \"pending\" \x7d,\n  \x7d);\n  await prisma.user.update(\x7b\n    where: \x7b id: userId \x7d,\n    data: \x7b lastOrderAt: new Date() \x7d,\n  \x7d);\n  res.json(order);\n\x7d);"⟩],
   ["route", "controller", "thin", "handler", "api", "validation"],
   [⟨"do-one-thing", "implements", "A thin route does one thing: bridge HTTP to the service layer"⟩,
    ⟨"keep-functions-small", "reinforces", "Routes stay small when business logic lives in services"⟩],
   none⟩,
  ⟨"one-route-one-module",
   "One Route, One Module",
   "routes-and-controllers",
   "Each route belongs to exactly one module. A route file lives within its module directory and only calls that module\x27s service. Cross-module operations are handled by the service, not the route.",
   "When routes belong to one module, the API surface is clear. It prevents routes from becoming orchestrators that couple multiple modules together.",
   [⟨"Good", "typescript", "// modules/orders/order.routes.ts\n// Only calls orderService — belongs to orders module\napp.get(\"/orders/:id\", async (req, res) => \x7b\n  const order = await orderService.getById(req.params.id);\n  res.json(order);\n\x7d);"⟩,
    ⟨"Bad", "typescript", "// Route importing from multiple modules directly\nimport \x7b orderService \x7d from \"../orders/index.js\";\nimport \x7b userService \x7d from \"../users/index.js\";\nimport \x7b paymentService \x7d from \"../payments/index.js\";\n\napp.post(\"/checkout\", async (req, res) => \x7b\n  const user = await userService.getById(req.body.userId);\n  const order = await orderService.create(req.body);\n  await paymentService.charge(order.totalCents);\n  res.json(\x7b order \x7d);\n\x7d);\n// This \"checkout\" route belongs to no specific module"⟩],
   ["route", "module", "ownership", "api", "single"],
   [⟨"single-responsibility-principle", "implements", "Each route file has one reason to change — its owning module\x27s requirements"⟩],
   none⟩,
  ⟨"request-validation-at-edge",
   "Request Validation at Edge",
   "routes-and-controllers",
   "Validate request input at the route/controller level (the edge), not deep inside services. Use Zod schemas or similar to validate and parse input before passing it to the service.",
   "Validating at the edge means services receive trusted, typed data. It separates HTTP concerns (parsing, validation) from business logic (processing).",
   [⟨"Good", "typescript", "// Validation at the edge with Zod\nimport \x7b createOrderSchema \x7d from \"./order.validation.js\";\n\napp.post(\"/orders\", async (req, res) => \x7b\n  const input = createOrderSchema.parse(req.body); // Validated & typed\n  const order = await orderService.create(input);   // Service trusts input\n  res.status(201).json(order);\n\x7d);"⟩,
    ⟨"Bad", "typescript", "// Validation buried inside the service\nexport class OrderService \x7b\n  async create(rawBody: unknown) \x7b\n    if (!rawBody || typeof rawBody !== \"object\") throw new Error(\"Invalid\");\n    const \x7b items \x7d = rawBody as any;\n    if (!Array.isArray(items)) throw new Error(\"Items required\");\n    // Mixing validation with business logic\n  \x7d\n\x7d"⟩],
   ["route", "validation", "edge", "zod", "input", "parsing"],
   [⟨"single-responsibility-principle", "reinforces", "Routes validate input; services handle business logic"⟩,
    ⟨"prefer-exceptions-to-error-codes", "complements", "Zod throws on invalid input — clean exception-based validation"⟩],
   none⟩,
  ⟨"minimal-shared-code",
   "Minimal Shared Code",
   "shared-kernel",
   "The shared kernel (code used by multiple modules) should be minimal and extremely stable. Limit it to: logger, database client, event bus, base types, and configuration. Nothing else.",
   "Every piece of shared code is a coupling point. The more you share, the harder it is to change anything. A minimal kernel means minimal coupling.",
   [⟨"Good", "text", "shared/\n  prisma.ts       # Database client instance\n  event-bus.ts    # Internal event bus\n  logger.ts       # Application logger\n  errors.ts       # Base error classes\n  types.ts        # Truly shared types (Pagination, Result)"⟩,
    ⟨"Bad", "text", "shared/\n  prisma.ts\n  logger.ts\n  email-sender.ts       # Should be in notifications module\n  price-calculator.ts   # Should be in orders module\n  date-utils.ts         # Should be duplicated or in a lib\n  api-client.ts         # Should be in integrations module\n  validators/           # Each module should own its validation"⟩],
   ["shared", "kernel", "minimal", "coupling", "common"],
   [⟨"classes-should-be-small", "extends", "Like classes, the shared kernel should be small — only the essentials"⟩],
   some "Eric Evans — Domain-Driven Design"⟩,
  ⟨"prefer-duplication-over-coupling",
   "Prefer Duplication over Coupling",
   "shared-kernel",
   "When two modules need similar code, prefer duplicating it in each module rather than extracting it to shared. Coupling between modules is more expensive than local duplication.",
   "Duplication is a local problem; coupling is a global problem. Two modules with similar validation code can evolve independently. Shared code forces them to change in lockstep.",
   [⟨"Good", "typescript", "// modules/orders/order.validation.ts\nconst emailSchema = z.string().email();\n\n// modules/users/user.validation.ts\nconst emailSchema = z.string().email();\n// Same code, but each module can evolve independently"⟩,
    ⟨"Bad", "typescript", "// shared/validators.ts — Forces coupling\nexport const emailSchema = z.string().email().min(5);\n// Change here breaks BOTH orders and users\n// What if orders needs .min(3) but users needs .min(5)?"⟩],
   ["shared", "duplication", "coupling", "dry", "independence"],
   [⟨"dry-principle", "complements", "DRY applies within a module. Across modules, controlled duplication is preferred over coupling"⟩],
   some "Sandi Metz — The Wrong Abstraction"⟩,
  ⟨"shared-types-only",
   "Shared Types Only",
   "shared-kernel",
   "The shared kernel should contain only types, interfaces, and constants — never implementations. If you need shared behavior, use dependency injection or events instead of shared code.",
   "Types are the safest thing to share because they have no behavior. Shared implementations create coupling and make it hard to reason about which module controls which behavior.",
   [⟨"Good", "typescript", "// shared/types.ts — Types only, no implementation\nexport interface Paginated<T> \x7b\n  items: T[];\n  total: number;\n  page: number;\n  pageSize: number;\n\x7d\n\nexport interface Result<T, E = Error> \x7b\n  ok: boolean;\n  data?: T;\n  error?: E;\n\x7d"⟩,
    ⟨"Bad", "typescript", "// shared/pagination.ts — Implementation in shared kernel\nexport function paginate<T>(items: T[], page: number, size: number): Paginated<T> \x7b\n  const start = (page - 1) * size;\n  return \x7b\n    items: items.slice(start, start + size),\n    total: items.length,\n    page,\n    pageSize: size,\n  \x7d;\n\x7d"⟩],
   ["shared", "types", "interface", "implementation", "kernel"],
   [⟨"interface-segregation-principle", "reinforces", "Share only the minimal interface needed — types are inherently segregated"⟩],
   none⟩,
  ⟨"test-module-in-isolation",
   "Test Module in Isolation",
   "testing-strategy",
   "Each module should be testable independently. Unit tests for a module should not require other modules to be running or initialized. Mock external dependencies.",
   "Isolated tests are fast, reliable, and pinpoint failures precisely. If testing one module requires another, the modules are too coupled.",
   [⟨"Good", "typescript", "// Test order service in isolation\ndescribe(\"OrderService\", () => \x7b\n  const mockRepo = \x7b create: vi.fn(), getById: vi.fn() \x7d;\n  const service = new OrderService(mockRepo);\n\n  it(\"creates an order\", async () => \x7b\n    mockRepo.create.mockResolvedValue(\x7b id: \"1\", status: \"pending\" \x7d);\n    const result = await service.create(\x7b items: [], userId: \"u1\" \x7d);\n    expect(result.status).toBe(\"pending\");\n  \x7d);\n\x7d);"⟩,
    ⟨"Bad", "typescript", "// Test requires REAL database and other modules\ndescribe(\"OrderService\", () => \x7b\n  it(\"creates an order\", async () => \x7b\n    // Needs real user in database\n    await prisma.user.create(\x7b data: \x7b id: \"u1\", email: \"a@b.com\" \x7d \x7d);\n    // Needs payment module running\n    const result = await orderService.create(\x7b items: [], userId: \"u1\" \x7d);\n  \x7d);\n\x7d);"⟩],
   ["testing", "isolation", "unit-test", "mock", "independent"],
   [⟨"independent-tests", "extends", "Module-level isolation ensures tests are independent of other modules"⟩,
    ⟨"fast-tests", "reinforces", "Isolated module tests with mocks run fast"⟩],
   none⟩,
  ⟨"contract-tests-at-boundaries",
   "Contract Tests at Boundaries",
   "testing-strategy",
   "Test the module\x27s public API (contract) rather than its internal implementation. Tests should exercise the exported functions and verify the expected DTOs.",
   "Contract tests survive refactoring. If you test internals, every refactoring breaks tests. Contract tests verify what matters: the module delivers what it promises.",
   [⟨"Good", "typescript", "// Test the public API contract\nimport \x7b orderService, type OrderDTO \x7d from \"../orders/index.js\";\n\ndescribe(\"Orders module contract\", () => \x7b\n  it(\"getById returns OrderDTO shape\", async () => \x7b\n    const order = await orderService.getById(\"test-id\");\n    expect(order).toMatchObject(\x7b\n      id: expect.any(String),\n      status: expect.any(String),\n      totalCents: expect.any(Number),\n    \x7d);\n  \x7d);\n\x7d);"⟩,
    ⟨"Bad", "typescript", "// Testing internal implementation details\nimport \x7b OrderRepository \x7d from \"../orders/order.repository.js\";\nimport \x7b mapToDTO \x7d from \"../orders/internal/mappers.js\";\n\ndescribe(\"Order internals\", () => \x7b\n  it(\"maps entity to DTO correctly\", () => \x7b\n    // This test breaks if you rename the mapper\n  \x7d);\n\x7d);"⟩],
   ["testing", "contract", "boundary", "public-api", "integration"],
   [⟨"test-boundary-conditions", "extends", "Module boundaries are the most critical boundary conditions to test"⟩],
   none⟩,
  ⟨"mock-other-modules",
   "Mock Other Modules",
   "testing-strategy",
   "When testing a module that depends on another module, mock the dependency at the module boundary (its public API). Never mock internal classes of another module.",
   "Mocking at module boundaries keeps tests focused on the module under test. It verifies integration contracts without requiring the full dependency chain.",
   [⟨"Good", "typescript", "// Mock the orders module\x27s public API\nvi.mock(\"../orders/index.js\", () => (\x7b\n  orderService: \x7b\n    getById: vi.fn().mockResolvedValue(\x7b\n      id: \"1\",\n      status: \"paid\",\n      totalCents: 5000,\n    \x7d),\n  \x7d,\n\x7d));\n\n// Now test shipping module with mocked orders\ndescribe(\"ShippingService\", () => \x7b /* ... */ \x7d);"⟩,
    ⟨"Bad", "typescript", "// Mocking internal implementation of another module\nvi.mock(\"../orders/order.repository.js\", () => (\x7b /* ... */ \x7d));\nvi.mock(\"../orders/internal/pricing.js\", () => (\x7b /* ... */ \x7d));\n// Breaks when orders module refactors its internals"⟩],
   ["testing", "mock", "module", "boundary", "dependency"],
   [⟨"independent-tests", "reinforces", "Mocking at module boundaries keeps tests independent"⟩],
   none⟩,
  ⟨"isolated-integration-module",
   "Isolated Integration Module",
   "external-integrations",
   "Each external integration (Stripe, SendGrid, S3, etc.) should live in its own module or within the consuming module behind a client wrapper. External API details must not leak into business logic.",
   "Isolating integrations means switching providers or updating API versions only affects one module. Business logic stays clean of external API specifics.",
   [⟨"Good", "text", "modules/\n  payments/\n    stripe-client.ts     # Stripe-specific implementation\n    payment.service.ts   # Business logic uses PaymentGateway interface\n    payment.types.ts     # PaymentGateway interface definition\n    index.ts"⟩,
    ⟨"Bad", "typescript", "// Stripe details scattered across modules\n// modules/orders/order.service.ts\nimport Stripe from \"stripe\";\nconst stripe = new Stripe(process.env.STRIPE_KEY);\n\nexport class OrderService \x7b\n  async checkout(orderId: string) \x7b\n    // Stripe API details in order business logic\n    const intent = await stripe.paymentIntents.create(\x7b ... \x7d);\n  \x7d\n\x7d"⟩],
   ["integration", "external", "isolation", "module", "provider"],
   [⟨"single-responsibility-principle", "implements", "Integration module\x27s sole responsibility is wrapping the external API"⟩,
    ⟨"separate-construction-from-use", "reinforces", "External client is constructed in the integration module, consumed through its interface"⟩],
   none⟩,
  ⟨"dedicated-client-wrapper",
   "Dedicated Client Wrapper",
   "external-integrations",
   "Create a dedicated client wrapper for each external API. The wrapper translates between the external API\x27s model and your internal model, handles authentication, retries, and error mapping.",
   "A client wrapper is your Anti-Corruption Layer for external systems. It provides a stable internal interface even when the external API changes.",
   [⟨"Good", "typescript", "// modules/notifications/email-client.ts\nexport class EmailClient \x7b\n  constructor(private apiKey: string) \x7b\x7d\n\n  async send(params: SendEmailParams): Promise<EmailResult> \x7b\n    try \x7b\n      const response = await fetch(\"https://api.sendgrid.com/v3/mail/send\", \x7b\n        method: \"POST\",\n        headers: \x7b Authorization: \x60Bearer $\x7bthis.apiKey\x7d\x60 \x7d,\n        body: JSON.stringify(this.toSendGridFormat(params)),\n      \x7d);\n      return this.parseResponse(response);\n    \x7d catch (error) \x7b\n      throw new EmailSendError(\"Failed to send email\", \x7b cause: error \x7d);\n    \x7d\n  \x7d\n\n  private toSendGridFormat(params: SendEmailParams) \x7b /* ... */ \x7d\n  private parseResponse(response: Response): EmailResult \x7b /* ... */ \x7d\n\x7d"⟩,
    ⟨"Bad", "typescript", "// Direct API calls scattered throughout services\nexport class OrderService \x7b\n  async notifyUser(email: string, orderId: string) \x7b\n    await fetch(\"https://api.sendgrid.com/v3/mail/send\", \x7b\n      headers: \x7b Authorization: \x60Bearer $\x7bprocess.env.SENDGRID_KEY\x7d\x60 \x7d,\n      body: JSON.stringify(\x7b /* SendGrid-specific format */ \x7d),\n    \x7d);\n  \x7d\n\x7d"⟩],
   ["integration", "client", "wrapper", "api", "external", "adapter"],
   [⟨"data-abstraction", "implements", "The wrapper abstracts the external API behind a clean internal interface"⟩,
    ⟨"use-exceptions-not-return-codes", "complements", "Client wrapper translates HTTP errors to meaningful exceptions"⟩],
   none⟩,
  ⟨"integration-change-isolation",
   "Integration Change Isolation",
   "external-integrations",
   "When an external system changes (new API version, provider switch), only the integration module should need to change. No business logic or other modules should be affected.",
   "This is the payoff of proper integration isolation. Switching from SendGrid to Mailgun or upgrading Stripe API v1 to v2 becomes a localized change.",
   [⟨"Good", "typescript", "// Switching from Stripe to PayPal — only payment module changes\n// modules/payments/paypal-client.ts (new)\nexport class PayPalClient implements PaymentGateway \x7b\n  async charge(amount: number, currency: string): Promise<PaymentResult> \x7b\n    // PayPal-specific implementation\n  \x7d\n\x7d\n\n// modules/payments/index.ts — swap the implementation\nexport const paymentGateway: PaymentGateway = new PayPalClient();\n// All consumers still use PaymentGateway interface — zero changes needed"⟩,
    ⟨"Bad", "typescript", "// Switching payment provider requires changing every consumer\n// Must update: orders, subscriptions, invoices, refunds...\n// Because they all import Stripe directly"⟩],
   ["integration", "change", "isolation", "provider", "swap"],
   [⟨"open-closed-principle", "implements", "System is open to new integrations but closed for modification of existing business logic"⟩],
   none⟩,
  ⟨"strangler-fig-pattern",
   "Strangler Fig Pattern",
   "migration",
   "Migrate from legacy to modular architecture incrementally. New features go into proper modules. Legacy code is gradually replaced module by module, never in a big-bang rewrite.",
   "Big-bang rewrites have a high failure rate. Strangler fig allows continuous delivery while migrating, and each step delivers value.",
   [⟨"Good", "text", "Phase 1: New features → proper modules\nPhase 2: Extract highest-value legacy area into module\nPhase 3: Route traffic to new module, keep legacy as fallback\nPhase 4: Remove legacy code when new module is proven\nPhase 5: Repeat for next area"⟩,
    ⟨"Bad", "text", "\"Let\x27s rewrite the entire system from scratch\"\n- 6 months later: still rewriting, no value delivered\n- Old system still in production, diverging\n- Team demoralized, project cancelled"⟩],
   ["migration", "strangler", "incremental", "legacy", "rewrite"],
   [⟨"simple-design-runs-all-tests", "complements", "Each migration step must pass all tests — incremental confidence"⟩],
   some "Martin Fowler — Strangler Fig Application"⟩,
  ⟨"extract-module-gradually",
   "Extract Module Gradually",
   "migration",
   "When extracting code into a module, do it gradually: first identify the boundary, then move code behind a public API, then enforce the boundary. Don\x27t try to extract and refactor simultaneously.",
   "Gradual extraction reduces risk. Each step is small, reviewable, and reversible. Trying to extract and perfect at the same time leads to scope creep.",
   [⟨"Good", "text", "Step 1: Create modules/orders/ directory\nStep 2: Move order-related files (don\x27t refactor yet)\nStep 3: Create index.ts with public API\nStep 4: Update all imports to use index.ts\nStep 5: Now refactor internals safely"⟩,
    ⟨"Bad", "text", "Step 1: Create modules/orders/\nStep 2: Move files AND refactor AND rename AND add tests\n         AND change the database schema AND...\n→ Massive PR, impossible to review, high risk of bugs"⟩],
   ["migration", "extraction", "gradual", "refactoring", "boundary"],
   [⟨"do-one-thing", "reinforces", "Each extraction step does one thing: move, then organize, then enforce"⟩],
   none⟩,
  ⟨"start-monolith-first",
   "Start Monolith First",
   "migration",
   "Start with a monolithic architecture and modularize when complexity justifies it. Premature modularization adds overhead without value. Wait until you understand the domain boundaries.",
   "Early in a project, domain boundaries are unclear. Starting with a monolith lets you discover real boundaries through usage. Modularize when you have evidence, not assumptions.",
   [⟨"Good", "text", "Month 1-3: Simple monolith, fast iteration\nMonth 4-6: Patterns emerge, some areas more complex\nMonth 7+:  Extract high-complexity areas into modules\n           (Now you KNOW where the boundaries are)"⟩,
    ⟨"Bad", "text", "Day 1: Design 15 modules based on assumptions\nDay 2: Realize \"orders\" and \"cart\" should be one module\nDay 3: Realize \"notifications\" needs to be split\nDay 4: Rewrite module boundaries AGAIN\n→ More time on architecture than features"⟩],
   ["migration", "monolith", "start", "premature", "boundaries"],
   [⟨"simple-design-minimal", "reinforces", "Minimal design: don\x27t add module boundaries until they\x27re needed"⟩],
   some "Martin Fowler — MonolithFirst"⟩,
  ⟨"measure-before-splitting",
   "Measure Before Splitting",
   "migration",
   "Before extracting a module or splitting to a service, measure coupling and cohesion. Use dependency analysis, change frequency, and team ownership to decide. Data-driven decisions, not gut feelings.",
   "Splitting based on instinct often creates distributed monoliths. Measuring coupling and cohesion provides evidence for where real boundaries exist.",
   [⟨"Good", "text", "Before splitting, analyze:\n✓ Import graph: which files depend on which?\n✓ Change coupling: which files change together?\n✓ Team ownership: does one team own this area?\n✓ Deployment: does this area need independent deployment?\n✓ Scale: does this area need independent scaling?"⟩,
    ⟨"Bad", "text", "\"Orders feels too big, let\x27s split it into\n order-creation, order-fulfillment, and order-history\"\n→ No data to support this split\n→ High communication overhead between new modules\n→ Essentially a distributed monolith"⟩],
   ["migration", "measure", "coupling", "cohesion", "split", "metrics"],
   [⟨"high-cohesion", "reinforces", "Measure cohesion — if a module\x27s parts don\x27t belong together, split is warranted"⟩],
   none⟩
]

/-- The static anti-pattern catalog, transcribed from the source data file. -/
def ANTI_PATTERNS : List AntiPattern := [
  ⟨"shared-database-anti-pattern",
   "Shared Database",
   "data-isolation",
   "Multiple modules read from and write to the same database tables directly. This creates invisible coupling where schema changes in one module break others. Each module must own its data exclusively.",
   [⟨"Bad", "typescript", "// Orders module writes to users table directly\nawait prisma.user.update(\x7b\n  where: \x7b id: userId \x7d,\n  data: \x7b lastOrderAt: new Date() \x7d,\n\x7d);"⟩,
    ⟨"Good", "typescript", "// Orders module asks users module to update\nimport \x7b userService \x7d from \"../users/index.js\";\nawait userService.recordLastOrder(userId);"⟩],
   ["anti-pattern", "database", "shared", "coupling", "data"],
   [⟨"avoid-inappropriate-intimacy", "reinforces", "Shared database access is the deepest form of inappropriate intimacy"⟩]⟩,
  ⟨"god-module",
   "God Module",
   "module-structure",
   "A single module that handles too many responsibilities with no clear boundary. It grows indefinitely because no one knows where else to put new code. Split by business domain.",
   [⟨"Bad", "text", "modules/core/\n  user.service.ts\n  order.service.ts\n  payment.service.ts\n  notification.service.ts\n  analytics.service.ts\n  # Everything is in \"core\" — it\x27s a monolith inside a monolith"⟩,
    ⟨"Good", "text", "modules/\n  users/         # Only user logic\n  orders/        # Only order logic\n  payments/      # Only payment logic\n  notifications/ # Only notification logic"⟩],
   ["anti-pattern", "god-module", "responsibility", "boundary", "split"],
   [⟨"single-responsibility-principle", "reinforces", "A god module violates SRP at the module level — multiple reasons to change"⟩,
    ⟨"classes-should-be-small", "extends", "Just as classes should be small, modules should be focused"⟩]⟩,
  ⟨"circular-dependency",
   "Circular Dependency",
   "dependency-management",
   "Module A depends on B, and B depends on A (directly or transitively). This makes both modules impossible to understand, test, or deploy independently. Break cycles with events or interfaces.",
   [⟨"Bad", "typescript", "// modules/orders/order.service.ts\nimport \x7b userService \x7d from \"../users/index.js\";\n\n// modules/users/user.service.ts\nimport \x7b orderService \x7d from \"../orders/index.js\";\n// CIRCULAR: orders → users → orders"⟩,
    ⟨"Good", "typescript", "// Break cycle: orders depends on users, users uses events\n// modules/orders/order.service.ts\nimport \x7b userService \x7d from \"../users/index.js\"; // OK\n\n// modules/users/user.service.ts — no import from orders\neventBus.on(\"order.created\", async (\x7b userId \x7d) => \x7b\n  await userService.incrementOrderCount(userId);\n\x7d);"⟩],
   ["anti-pattern", "circular", "cycle", "dependency", "coupling"],
   [⟨"dependency-inversion-principle", "implements", "Break cycles by introducing abstractions (interfaces or events)"⟩]⟩,
  ⟨"business-logic-in-routes",
   "Business Logic in Routes",
   "routes-and-controllers",
   "Route handlers contain business logic, database queries, and complex transformations instead of delegating to a service. Makes logic untestable and unreusable.",
   [⟨"Bad", "typescript", "app.post(\"/orders\", async (req, res) => \x7b\n  const items = req.body.items;\n  let total = 0;\n  for (const item of items) \x7b\n    const product = await prisma.product.findUnique(\x7b where: \x7b id: item.id \x7d \x7d);\n    if (!product || product.stock < item.qty) \x7b\n      return res.status(400).json(\x7b error: \"Out of stock\" \x7d);\n    \x7d\n    total += product.price * item.qty;\n  \x7d\n  const order = await prisma.order.create(\x7b data: \x7b total, items, userId: req.userId \x7d \x7d);\n  await prisma.product.updateMany(\x7b /* decrement stock */ \x7d);\n  res.json(order);\n\x7d);"⟩,
    ⟨"Good", "typescript", "app.post(\"/orders\", async (req, res) => \x7b\n  const input = createOrderSchema.parse(req.body);\n  const order = await orderService.create(input);\n  res.status(201).json(order);\n\x7d);"⟩],
   ["anti-pattern", "route", "business-logic", "fat-controller"],
   [⟨"do-one-thing", "reinforces", "Routes should do one thing: bridge HTTP to the service layer"⟩,
    ⟨"keep-functions-small", "reinforces", "Fat routes are long functions — extract to service"⟩]⟩,
  ⟨"leaky-abstraction",
   "Leaky Abstraction",
   "module-boundaries",
   "Module\x27s public API leaks internal implementation details: Prisma models, internal error types, database column names, or infrastructure types. The public API should expose only domain concepts.",
   [⟨"Bad", "typescript", "// Public API leaks Prisma types\nexport async function getUser(id: string): Promise<PrismaUser> \x7b\n  return prisma.user.findUniqueOrThrow(\x7b where: \x7b id \x7d \x7d);\n\x7d\n// Consumers now depend on Prisma — internal detail"⟩,
    ⟨"Good", "typescript", "export interface UserDTO \x7b\n  id: string;\n  email: string;\n  name: string;\n\x7d\n\nexport async function getUser(id: string): Promise<UserDTO | null> \x7b\n  const user = await prisma.user.findUnique(\x7b where: \x7b id \x7d \x7d);\n  return user ? \x7b id: user.id, email: user.email, name: user.name \x7d : null;\n\x7d"⟩],
   ["anti-pattern", "leaky", "abstraction", "boundary", "implementation"],
   [⟨"data-abstraction", "reinforces", "Proper abstraction hides implementation — leaky abstractions expose it"⟩]⟩,
  ⟨"cross-module-direct-import",
   "Cross-Module Direct Import",
   "module-communication",
   "Importing internal files from another module instead of using its public API (index.ts). This bypasses the module boundary and creates tight coupling to implementation details.",
   [⟨"Bad", "typescript", "// Importing internal file directly\nimport \x7b OrderRepository \x7d from \"../orders/order.repository.js\";\nimport \x7b hashPassword \x7d from \"../users/internal/crypto.js\";\nimport \x7b ORDER_STATUS \x7d from \"../orders/constants.js\";"⟩,
    ⟨"Good", "typescript", "// Import only from public API\nimport \x7b orderService, type Order, OrderStatus \x7d from \"../orders/index.js\";"⟩],
   ["anti-pattern", "import", "direct", "boundary", "violation"],
   [⟨"law-of-demeter", "reinforces", "Don\x27t reach into another module\x27s internals"⟩]⟩,
  ⟨"cross-module-db-access",
   "Cross-Module DB Access",
   "data-isolation",
   "One module directly queries or modifies another module\x27s database tables. Even read-only access is a violation because it couples to the schema.",
   [⟨"Bad", "typescript", "// Shipping module directly queries orders table\nconst orders = await prisma.order.findMany(\x7b\n  where: \x7b status: \"ready_to_ship\" \x7d,\n\x7d);"⟩,
    ⟨"Good", "typescript", "// Shipping asks orders module for the data\nconst orders = await orderService.getReadyToShip();"⟩],
   ["anti-pattern", "database", "cross-module", "query", "access"],
   [⟨"avoid-inappropriate-intimacy", "reinforces", "Direct DB access is intimate knowledge of another module\x27s data structure"⟩]⟩,
  ⟨"distributed-monolith",
   "Distributed Monolith",
   "module-communication",
   "Modules are \x27separated\x27 in directories but completely coupled: synchronous calls everywhere, shared database, no clear boundaries. Worst of both worlds: complexity of distribution with rigidity of monolith.",
   [⟨"Bad", "text", "modules/\n  orders/    → imports from users, payments, inventory, shipping\n  users/     → imports from orders, payments\n  payments/  → imports from orders, users\n  # Every module depends on every other module\n  # Can\x27t change anything without affecting everything"⟩,
    ⟨"Good", "text", "modules/\n  orders/    → depends on: users (read), emits: order.created\n  users/     → depends on: nothing, listens: order.created\n  payments/  → depends on: orders (read), emits: payment.completed\n  # Clear dependency direction, minimal coupling"⟩],
   ["anti-pattern", "distributed-monolith", "coupling", "separation"],
   [⟨"high-cohesion", "reinforces", "Distributed monolith has low cohesion within modules and high coupling between them"⟩]⟩,
  ⟨"anemic-module",
   "Anemic Module",
   "module-structure",
   "A module with no real business logic — it\x27s just a pass-through that delegates everything to another module or the database. If a module adds no value, it shouldn\x27t exist.",
   [⟨"Bad", "typescript", "// Anemic module: just passes through to prisma\nexport class UserService \x7b\n  async getById(id: string) \x7b return prisma.user.findUnique(\x7b where: \x7b id \x7d \x7d); \x7d\n  async create(data: any) \x7b return prisma.user.create(\x7b data \x7d); \x7d\n  async update(id: string, data: any) \x7b return prisma.user.update(\x7b where: \x7b id \x7d, data \x7d); \x7d\n  // No validation, no business rules, no transformation\n\x7d"⟩,
    ⟨"Good", "typescript", "export class UserService \x7b\n  async create(input: CreateUserInput) \x7b\n    const existing = await this.repo.findByEmail(input.email);\n    if (existing) throw new DuplicateEmailError(input.email);\n\n    const hashedPassword = await hash(input.password);\n    const user = await this.repo.create(\x7b ...input, password: hashedPassword \x7d);\n\n    eventBus.emit(\"user.created\", \x7b userId: user.id \x7d);\n    return toUserDTO(user);\n  \x7d\n\x7d"⟩],
   ["anti-pattern", "anemic", "pass-through", "no-logic", "crud"],
   [⟨"avoid-feature-envy", "extends", "An anemic module envies no one — it has no behavior of its own"⟩]⟩,
  ⟨"feature-envy-module",
   "Feature Envy Module",
   "module-structure",
   "A module that uses more data and behavior from another module than from its own. This suggests the logic belongs in the other module, or the boundary is drawn incorrectly.",
   [⟨"Bad", "typescript", "// Shipping module uses mostly order data\nexport class ShippingService \x7b\n  async createShipment(orderId: string) \x7b\n    const order = await orderService.getById(orderId);\n    const items = await orderService.getItems(orderId);\n    const address = await orderService.getShippingAddress(orderId);\n    const weight = await orderService.calculateWeight(orderId);\n    // All data comes from orders — does shipping add any value?\n  \x7d\n\x7d"⟩,
    ⟨"Good", "typescript", "// Orders module provides a shipping-ready DTO\n// modules/orders/index.ts\nexport interface ShippableOrder \x7b\n  orderId: string;\n  items: ShippableItem[];\n  destination: Address;\n  totalWeightGrams: number;\n\x7d\nexport async function getShippableOrder(id: string): Promise<ShippableOrder>;\n\n// Shipping module uses the focused DTO\nconst shippable = await orderService.getShippableOrder(orderId);\nconst rate = this.calculateRate(shippable.totalWeightGrams, shippable.destination);"⟩],
   ["anti-pattern", "feature-envy", "boundary", "misplaced-logic"],
   [⟨"avoid-feature-envy", "extends", "Module-level feature envy: a module that envies another module\x27s data"⟩]⟩,
  ⟨"premature-extraction",
   "Premature Extraction",
   "migration",
   "Extracting code into a module before understanding the real boundaries. Premature modules often have the wrong boundaries and need to be merged or restructured later.",
   [⟨"Bad", "text", "Day 1 of project:\n\"Let\x27s create 12 modules based on our initial design\"\n→ By month 2, half need to be merged or split\n→ Wasted effort on wrong boundaries"⟩,
    ⟨"Good", "text", "Start simple, extract when patterns emerge:\n1. Keep related code close\n2. Notice which code changes together\n3. When a clear boundary appears, extract to module\n4. The boundary is right when changes are isolated"⟩],
   ["anti-pattern", "premature", "extraction", "boundary", "early"],
   [⟨"simple-design-minimal", "reinforces", "Don\x27t add structure you don\x27t need yet — minimal classes, minimal modules"⟩]⟩,
  ⟨"shared-everything-kernel",
   "Shared Everything Kernel",
   "shared-kernel",
   "A shared kernel that contains implementations, utilities, helpers, and business logic instead of just types and infrastructure. Becomes a coupling magnet that every module depends on.",
   [⟨"Bad", "text", "shared/\n  utils/\n    date-utils.ts        # Business logic in shared\n    price-calculator.ts  # Should be in orders\n    email-validator.ts   # Should be in each module\n    formatters.ts        # Each module should format its own data\n  services/\n    base-service.ts      # God base class"⟩,
    ⟨"Good", "text", "shared/\n  prisma.ts      # Infrastructure: DB client\n  event-bus.ts   # Infrastructure: event system\n  logger.ts      # Infrastructure: logging\n  types.ts       # Types only: Paginated<T>, Result<T>\n  errors.ts      # Base error classes"⟩],
   ["anti-pattern", "shared-kernel", "coupling", "utility", "implementation"],
   [⟨"interface-segregation-principle", "reinforces", "Share only minimal interfaces, not broad implementations"⟩]⟩,
  ⟨"event-soup",
   "Event Soup",
   "module-communication",
   "Too many events without clear naming, documentation, or traceability. When everything communicates via events, it becomes impossible to understand the flow. Use events for decoupling, not for everything.",
   [⟨"Bad", "typescript", "// 50+ events with no documentation or naming convention\neventBus.emit(\"data_changed\", \x7b ... \x7d);\neventBus.emit(\"update\", \x7b type: \"user\", ... \x7d);\neventBus.emit(\"action\", \x7b action: \"purchase\", ... \x7d);\n// Who listens? What happens? Nobody knows"⟩,
    ⟨"Good", "typescript", "// Clear naming: \x7bmodule\x7d.\x7bentity\x7d.\x7baction\x7d\neventBus.emit(\"orders.order.created\", \x7b\n  orderId: \"123\",\n  userId: \"456\",\n  totalCents: 5000,\n\x7d);\n// Documented, typed, traceable"⟩],
   ["anti-pattern", "events", "soup", "naming", "traceability"],
   [⟨"use-intention-revealing-names", "reinforces", "Event names should clearly reveal what happened"⟩]⟩,
  ⟨"tight-temporal-coupling",
   "Tight Temporal Coupling",
   "module-communication",
   "Modules that depend on a specific execution order: module A must initialize before B, or operation X must complete before Y. This creates fragile, hard-to-debug systems.",
   [⟨"Bad", "typescript", "// Modules must initialize in specific order\nawait userModule.init();      // Must be first\nawait orderModule.init();     // Depends on users being ready\nawait paymentModule.init();   // Depends on orders being ready\n// Swap the order → runtime crash"⟩,
    ⟨"Good", "typescript", "// Modules initialize independently\nawait Promise.all([\n  userModule.init(),\n  orderModule.init(),\n  paymentModule.init(),\n]);\n// Each module handles its own readiness"⟩],
   ["anti-pattern", "temporal", "coupling", "order", "initialization"],
   [⟨"avoid-side-effects-in-functions", "reinforces", "Temporal coupling often comes from hidden side effects during initialization"⟩]⟩,
  ⟨"hidden-dependency",
   "Hidden Dependency",
   "dependency-management",
   "Modules depend on each other through global state, environment variables, or shared singletons instead of explicit imports. These invisible dependencies make the system unpredictable.",
   [⟨"Bad", "typescript", "// Hidden dependency via global state\n// modules/orders/order.service.ts\nexport class OrderService \x7b\n  async create(input: CreateOrderInput) \x7b\n    // Depends on global.currentUser being set by auth middleware\n    const userId = (global as any).currentUser.id;\n    // Hidden: nothing in the import graph shows this dependency\n  \x7d\n\x7d"⟩,
    ⟨"Good", "typescript", "// Explicit dependency via parameter\nexport class OrderService \x7b\n  async create(input: CreateOrderInput, userId: string) \x7b\n    // Dependency is explicit in the function signature\n  \x7d\n\x7d"⟩],
   ["anti-pattern", "hidden", "dependency", "global", "state", "implicit"],
   [⟨"avoid-side-effects-in-functions", "reinforces", "Global state access is a hidden side effect"⟩,
    ⟨"use-dependency-injection", "reinforces", "Explicit DI makes all dependencies visible"⟩]⟩,
  ⟨"inconsistent-boundaries",
   "Inconsistent Boundaries",
   "module-boundaries",
   "Some parts of a module have clear boundaries (public API, DTOs) while others leak internals. Partial boundaries are worse than none because they create false confidence.",
   [⟨"Bad", "typescript", "// modules/orders/index.ts\nexport \x7b orderService \x7d from \"./order.service.js\";\nexport type \x7b OrderDTO \x7d from \"./order.types.js\";\n\n// But also exports internals:\nexport \x7b OrderRepository \x7d from \"./order.repository.js\";\nexport \x7b mapToDTO \x7d from \"./internal/mappers.js\";\n// Boundary exists but is not enforced"⟩,
    ⟨"Good", "typescript", "// modules/orders/index.ts — Clean, consistent boundary\nexport \x7b orderService \x7d from \"./order.service.js\";\nexport type \x7b OrderDTO, CreateOrderInput \x7d from \"./order.types.js\";\n// Nothing else exported — boundary is clear and enforced"⟩],
   ["anti-pattern", "boundary", "inconsistent", "partial", "leaky"],
   [⟨"simple-design-expressive", "reinforces", "A clean boundary clearly expresses what the module provides"⟩]⟩
]

/-! ## Scoring (src/modules/rule-search/scoring.ts) -/

/-- The additive weights of the query scorer (`SCORE_WEIGHTS`). -/
structure ScoreWeights where
  EXACT_ID_MATCH : Int
  NAME_CONTAINS : Int
  TAG_EXACT : Int
  TAG_PARTIAL : Int
  DESCRIPTION_CONTAINS : Int
  CATEGORY_MATCH : Int

def SCORE_WEIGHTS : ScoreWeights :=
  { EXACT_ID_MATCH := 100
    NAME_CONTAINS := 80
    TAG_EXACT := 70
    TAG_PARTIAL := 50
    DESCRIPTION_CONTAINS := 30
    CATEGORY_MATCH := 20 }

def CATEGORY_BOOST_MULTIPLIER : Int := 15

/-- `scoreRuleByQuery(rule, query)`: normalize the query, short-circuit on
an exact id match, otherwise add the name / tag / description / category
contributions. -/
def scoreRuleByQuery (rule : ArchitectureRule) (query : String) : Int :=
  let normalizedQuery := jsTrim (jsToLower query)
  if rule.id = normalizedQuery then
    SCORE_WEIGHTS.EXACT_ID_MATCH
  else
    let score : Int := 0
    let score := if jsIncludes (jsToLower rule.name) normalizedQuery then
        score + SCORE_WEIGHTS.NAME_CONTAINS else score
    let score := rule.tags.foldl (fun score tag =>
        if tag = normalizedQuery then
          score + SCORE_WEIGHTS.TAG_EXACT
        else if jsIncludes tag normalizedQuery || jsIncludes normalizedQuery tag then
          score + SCORE_WEIGHTS.TAG_PARTIAL
        else score) score
    let score := if jsIncludes (jsToLower rule.description) normalizedQuery then
        score + SCORE_WEIGHTS.DESCRIPTION_CONTAINS else score
    let score := if jsIncludes rule.category normalizedQuery then
        score + SCORE_WEIGHTS.CATEGORY_MATCH else score
    score

/-- A JavaScript `Map` with string keys, modelled as an insertion-ordered
association list with unique keys; `get` returns the value at the key. -/
def mapGet (m : List (String × Int)) (k : String) : Option Int :=
  (m.find? (fun p => p.1 == k)).map (fun p => p.2)

/-- `Map.set`: update the value in place when the key is present,
otherwise append the new binding at the end. -/
def mapSet (m : List (String × Int)) (k : String) (v : Int) : List (String × Int) :=
  if m.any (fun p => p.1 == k) then
    m.map (fun p => if p.1 == k then (p.1, v) else p)
  else m ++ [(k, v)]

/-- `scoreRuleByTokens(rule, tokens, categoryBoosts)`: sum the per-token
query scores, then add the category boost times the multiplier. -/
def scoreRuleByTokens (rule : ArchitectureRule) (tokens : List String)
    (categoryBoosts : List (String × Int)) : Int :=
  let score := tokens.foldl (fun score token => score + scoreRuleByQuery rule token) 0
  let boost := (mapGet categoryBoosts rule.category).getD 0
  score + boost * CATEGORY_BOOST_MULTIPLIER

/-- `rankRules(rules, scoreFn)`: score every entry, drop scores `≤ 0`,
sort descending by score (stable, as `Array.prototype.sort` is), and
return the entries. -/
def rankRules (rules : List ArchitectureRule) (scoreFn : ArchitectureRule → Int) :
    List ArchitectureRule :=
  ((((rules.map (fun rule => (rule, scoreFn rule))).filter
      (fun p => decide (0 < p.2))).mergeSort
      (fun a b => decide (b.2 ≤ a.2))).map (fun p => p.1))

/-! ## Tokenizer (src/modules/rule-search/tokenizer.ts) -/

def STOP_WORDS : List String :=
  ["a", "an", "the", "is", "it", "to", "in", "of", "and", "or", "for", "on",
   "at", "by", "be", "as", "do", "if", "my", "no", "not", "but", "was", "are",
   "has", "had", "can", "how", "what", "when", "this", "that", "with", "from",
   "have", "will", "been", "they", "them", "then", "than", "some", "should",
   "would", "could", "about", "which", "there", "where", "their", "other",
   "into", "very", "just", "also", "more", "like", "want", "need", "i", "me",
   "we", "you"]

/-- The static token-to-category hint table (`CATEGORY_KEYWORDS`). -/
def CATEGORY_KEYWORDS : List (String × String) :=
  [("module", "module-structure"), ("modules", "module-structure"),
   ("structure", "module-structure"), ("layout", "module-structure"),
   ("organize", "module-structure"), ("organization", "module-structure"),
   ("directory", "module-structure"), ("folder", "module-structure"),
   ("boundary", "module-boundaries"), ("boundaries", "module-boundaries"),
   ("api", "module-boundaries"), ("facade", "module-boundaries"),
   ("encapsulation", "module-boundaries"), ("contract", "module-boundaries"),
   ("public", "module-boundaries"), ("barrel", "module-boundaries"),
   ("communication", "module-communication"), ("event", "module-communication"),
   ("events", "module-communication"), ("messaging", "module-communication"),
   ("sync", "module-communication"), ("async", "module-communication"),
   ("event-bus", "module-communication"),
   ("data", "data-isolation"), ("database", "data-isolation"),
   ("schema", "data-isolation"), ("isolation", "data-isolation"),
   ("ownership", "data-isolation"), ("table", "data-isolation"),
   ("tables", "data-isolation"), ("join", "data-isolation"),
   ("prisma", "data-isolation"),
   ("dependency", "dependency-management"), ("dependencies", "dependency-management"),
   ("coupling", "dependency-management"), ("acyclic", "dependency-management"),
   ("circular", "dependency-management"), ("cycle", "dependency-management"),
   ("dag", "dependency-management"),
   ("route", "routes-and-controllers"), ("routes", "routes-and-controllers"),
   ("controller", "routes-and-controllers"), ("handler", "routes-and-controllers"),
   ("thin", "routes-and-controllers"), ("endpoint", "routes-and-controllers"),
   ("shared", "shared-kernel"), ("kernel", "shared-kernel"),
   ("common", "shared-kernel"), ("duplication", "shared-kernel"),
   ("test", "testing-strategy"), ("testing", "testing-strategy"),
   ("tests", "testing-strategy"), ("mock", "testing-strategy"),
   ("contract-test", "testing-strategy"),
   ("external", "external-integrations"), ("client", "external-integrations"),
   ("wrapper", "external-integrations"), ("integration", "external-integrations"),
   ("provider", "external-integrations"),
   ("migration", "migration"), ("strangler", "migration"),
   ("extract", "migration"), ("legacy", "migration"),
   ("monolith", "migration"), ("microservice", "migration"),
   ("split", "migration")]

/-- Record lookup `CATEGORY_KEYWORDS[token]`. -/
def recordGet (m : List (String × String)) (k : String) : Option String :=
  (m.find? (fun p => p.1 == k)).map (fun p => p.2)

/-- The characters kept by the tokenizer's `[^a-z0-9\-]` replacement:
lowercase letters, digits and the hyphen. -/
def isTokenChar (c : Char) : Bool :=
  ('a' ≤ c && c ≤ 'z') || ('0' ≤ c && c ≤ '9') || c = '-'

/-- Split a character list at every space, keeping the (possibly empty)
groups between them. -/
def splitOnSpaces (l : List Char) : List (List Char) :=
  l.foldr (fun c acc =>
    if c = ' ' then [] :: acc
    else match acc with
      | [] => [[c]]
      | g :: rest => (c :: g) :: rest) [[]]

/-- `tokenize(text)`: lowercase, replace every run of characters outside
`[a-z0-9-]` by a space, split on whitespace and keep tokens of length
greater than 1 (which also discards the empty artifacts of splitting). -/
def tokenize (text : String) : List String :=
  let replaced := (jsToLower text).data.map (fun c => if isTokenChar c then c else ' ')
  ((splitOnSpaces replaced).map (fun cs => String.mk cs)).filter
    (fun token => decide (token.length > 1))

/-- `removeStopWords(tokens)`. -/
def removeStopWords (tokens : List String) : List String :=
  tokens.filter (fun token => !(STOP_WORDS.contains token))

/-- `detectCategoryBoosts(tokens)`: count, per category, the tokens whose
keyword-table entry hints at it (a missing or falsy entry contributes
nothing). -/
def detectCategoryBoosts (tokens : List String) : List (String × Int) :=
  tokens.foldl (fun boosts token =>
    match recordGet CATEGORY_KEYWORDS token with
    | some category =>
        if category ≠ "" then
          mapSet boosts category ((mapGet boosts category).getD 0 + 1)
        else boosts
    | none => boosts) []

/-! ## Category labels (src/shared/categories.ts) -/

def CATEGORY_LABELS : List (String × String) :=
  [("module-structure", "Module Structure"),
   ("module-boundaries", "Module Boundaries"),
   ("module-communication", "Module Communication"),
   ("data-isolation", "Data Isolation"),
   ("dependency-management", "Dependency Management"),
   ("routes-and-controllers", "Routes & Controllers"),
   ("shared-kernel", "Shared Kernel"),
   ("testing-strategy", "Testing Strategy"),
   ("external-integrations", "External Integrations"),
   ("migration", "Migration & Evolution")]

/-- `CATEGORY_LABELS[category]` as interpolated into a template string:
a missing key would render as the text `undefined`. -/
def categoryLabel (category : String) : String :=
  (recordGet CATEGORY_LABELS category).getD "undefined"

/-! ## Markdown formatters (src/modules/rule-catalog/rule-formatter.ts) -/

def formatExample (ex : CodeExample) : List String :=
  ["", "**" ++ ex.label ++ ":**", "",
   "\x60\x60\x60" ++ ex.language, ex.code, "\x60\x60\x60"]

def formatCleanCodeRef (ref : CleanCodeReference) : List String :=
  ["- **" ++ ref.relationship ++ "** \x60" ++ ref.principleId ++ "\x60 — " ++ ref.note,
   "  _Use: search-principle \"" ++ ref.principleId ++ "\" in clean-code-mcp_"]

def formatRuleAsMarkdown (rule : ArchitectureRule) : String :=
  let lines : List String :=
    ["## " ++ rule.name, "",
     "**Category:** " ++ categoryLabel rule.category,
     "**ID:** \x60" ++ rule.id ++ "\x60", "",
     rule.description, "",
     "**Rationale:** " ++ rule.rationale]
  let lines := if rule.examples.length > 0 then
      lines ++ ["", "### Examples"] ++ (rule.examples.map formatExample).flatten
    else lines
  let lines := if rule.cleanCodeRefs.length > 0 then
      lines ++ ["", "### Related Clean Code Principles"] ++
        (rule.cleanCodeRefs.map formatCleanCodeRef).flatten
    else lines
  let lines := lines ++ ["", "**Tags:** " ++ String.intercalate ", " rule.tags]
  let lines := match rule.source with
    | some src => lines ++ ["**Source:** " ++ src]
    | none => lines
  String.intercalate "\n" lines

/-- `formatAntiPatternAsMarkdown`: the anti-pattern renderer.  At the call
site inside the search formatter it receives the widened rule-shaped
record, so it is stated over `ArchitectureRule` and reads only the
anti-pattern fields (no rationale, no source). -/
def formatAntiPatternAsMarkdown (ap : ArchitectureRule) : String :=
  let lines : List String :=
    ["## ⚠ Anti-Pattern: " ++ ap.name, "",
     "**Category:** " ++ categoryLabel ap.category,
     "**ID:** \x60" ++ ap.id ++ "\x60", "",
     ap.description]
  let lines := if ap.examples.length > 0 then
      lines ++ ["", "### Examples"] ++ (ap.examples.map formatExample).flatten
    else lines
  let lines := if ap.cleanCodeRefs.length > 0 then
      lines ++ ["", "### Related Clean Code Principles"] ++
        (ap.cleanCodeRefs.map formatCleanCodeRef).flatten
    else lines
  let lines := lines ++ ["", "**Tags:** " ++ String.intercalate ", " ap.tags]
  String.intercalate "\n" lines

/-- `truncateDescription(description, maxLength = 100)`: strings within the
limit are returned unchanged, longer ones are cut at the limit, trimmed of
trailing whitespace and given an ellipsis marker. -/
def truncateDescription (description : String) (maxLength : Nat := 100) : String :=
  if description.length ≤ maxLength then description
  else jsTrimEnd (jsSlice0 description maxLength) ++ "..."

def formatRuleList (rules : List ArchitectureRule) : String :=
  if rules.length = 0 then "No rules found."
  else
    let lines := ["Found **" ++ toString rules.length ++ "** rule(s):", ""]
    let lines := lines ++ rules.map (fun rule =>
      "- **" ++ rule.name ++ "** (\x60" ++ rule.id ++ "\x60) — " ++
        truncateDescription rule.description)
    String.intercalate "\n" lines

/-! ## Search result assembly (src/modules/rule-search/format-results.ts) -/

def MAX_DETAILED_RESULTS : Nat := 3
def MAX_TOTAL_RESULTS : Nat := 10

/-- A search hit tagged with which renderer applies to it. -/
inductive TaggedResult where
  | rule (item : ArchitectureRule)
  | antiPattern (item : ArchitectureRule)
deriving DecidableEq

def TaggedResult.item : TaggedResult → ArchitectureRule
  | .rule item => item
  | .antiPattern item => item

def TaggedResult.render : TaggedResult → String
  | .rule item => formatRuleAsMarkdown item
  | .antiPattern item => formatAntiPatternAsMarkdown item

/-- One text block of a tool response. -/
structure TextContent where
  type : String
  text : String
deriving DecidableEq

/-- The value a tool handler returns. -/
structure ToolResult where
  content : List TextContent
deriving DecidableEq

/-- The display options of `formatSearchResults`. -/
structure SearchFormatOptions where
  emptyMessage : String
  remainingHeader : String
  maxTotal : Option Nat := none
deriving DecidableEq

/-- `antiPatternsAsRules(antiPatterns)`: widen each anti-pattern to the
rule shape by copying `description` into `rationale` (spread plus one
field; the optional `source` stays absent). -/
def antiPatternsAsRules (antiPatterns : List AntiPattern) : List ArchitectureRule :=
  antiPatterns.map (fun ap =>
    { id := ap.id, name := ap.name, category := ap.category,
      description := ap.description, rationale := ap.description,
      examples := ap.examples, tags := ap.tags,
      cleanCodeRefs := ap.cleanCodeRefs, source := none })

/-- `formatSearchResults(rankedRules, rankedAntiPatterns, options)`. -/
def formatSearchResults (rankedRules rankedAntiPatterns : List ArchitectureRule)
    (options : SearchFormatOptions) : ToolResult :=
  let maxTotal := options.maxTotal.getD MAX_TOTAL_RESULTS
  let allResults : List TaggedResult :=
    ((rankedRules.map TaggedResult.rule) ++
      (rankedAntiPatterns.map TaggedResult.antiPattern)).take maxTotal
  if allResults.length = 0 then
    { content := [{ type := "text", text := options.emptyMessage }] }
  else
    let detailed := allResults.take MAX_DETAILED_RESULTS
    let remaining := (allResults.drop MAX_DETAILED_RESULTS).take
      (maxTotal - MAX_DETAILED_RESULTS)
    let parts := detailed.map TaggedResult.render
    let parts := if remaining.length > 0 then
        parts ++ ["\n---\n### " ++ options.remainingHeader ++ "\n" ++
          formatRuleList (remaining.map TaggedResult.item)]
      else parts
    { content := [{ type := "text", text := String.intercalate "\n\n---\n\n" parts }] }

/-! ## Tool handlers (search-rule.tool.ts, search-by-context.tool.ts) -/

def MAX_CONTEXT_RESULTS : Nat := 8

/-- The handler of the `search-rule` tool: single-query scoring over the
full catalog, then formatting. -/
def searchRuleHandler (query : String) : ToolResult :=
  let rankedRules := rankRules RULES (fun rule => scoreRuleByQuery rule query)
  let rankedAntiPatterns := rankRules (antiPatternsAsRules ANTI_PATTERNS)
    (fun ap => scoreRuleByQuery ap query)
  formatSearchResults rankedRules rankedAntiPatterns
    { emptyMessage := "No rules or anti-patterns found for \"" ++ query ++ "\"."
      remainingHeader := "Other matches"
      maxTotal := some MAX_TOTAL_RESULTS }

/-- The handler of the `search-by-context` tool: tokenize, drop stop
words, score by tokens with category boosts, then format. -/
def searchByContextHandler (context : String) : ToolResult :=
  let tokens := removeStopWords (tokenize context)
  let categoryBoosts := detectCategoryBoosts tokens
  let rankedRules := rankRules RULES (fun rule =>
    scoreRuleByTokens rule tokens categoryBoosts)
  let rankedAntiPatterns := rankRules (antiPatternsAsRules ANTI_PATTERNS)
    (fun ap => scoreRuleByTokens ap tokens categoryBoosts)
  formatSearchResults rankedRules rankedAntiPatterns
    { emptyMessage := "No rules found matching that context."
      remainingHeader := "Also relevant"
      maxTotal := some MAX_CONTEXT_RESULTS }

/-! ## Specification-side definitions

These definitions transcribe the specification's wording (not the code);
they exist to be compared with the code-derived definitions above. -/

/-- The query normalization both scorer descriptions share: lowercase,
then trim surrounding whitespace. -/
def normalizeQuery (query : String) : String := jsTrim (jsToLower query)

/-- Written from the spec's words for the scorer: an exact id match
(compared case-insensitively against the normalized query) returns 100
with no other rule contributing; otherwise the result is the sum of the
name, per-tag, description and category contributions. -/
def specScoreRuleByQuery (rule : ArchitectureRule) (query : String) : Int :=
  let q := normalizeQuery query
  if jsToLower rule.id = q then 100
  else
    (if jsIncludes (jsToLower rule.name) q then (80 : Int) else 0) +
    (rule.tags.map (fun tag =>
      if tag = q then (70 : Int)
      else if jsIncludes tag q || jsIncludes q tag then 50
      else 0)).sum +
    (if jsIncludes (jsToLower rule.description) q then (30 : Int) else 0) +
    (if jsIncludes rule.category q then (20 : Int) else 0)

/-- Written from the spec's words for the result formatter: concatenate
rules before anti-patterns, truncate to the maximum total, return exactly
the empty message on an empty truncation, otherwise render the first 3
entries in detail and the (possibly empty) remainder as a summary list
preceded by the overflow header. -/
def specFormatSearchResults (rankedRules rankedAntiPatterns : List ArchitectureRule)
    (options : SearchFormatOptions) : ToolResult :=
  let maxTotal := options.maxTotal.getD MAX_TOTAL_RESULTS
  let truncated : List TaggedResult :=
    ((rankedRules.map TaggedResult.rule) ++
      (rankedAntiPatterns.map TaggedResult.antiPattern)).take maxTotal
  if truncated = [] then
    { content := [{ type := "text", text := options.emptyMessage }] }
  else
    let detailed := truncated.take 3
    let summary := truncated.drop 3
    let parts := detailed.map TaggedResult.render
    let parts := if summary ≠ [] then
        parts ++ ["\n---\n### " ++ options.remainingHeader ++ "\n" ++
          formatRuleList (summary.map TaggedResult.item)]
      else parts
    { content := [{ type := "text", text := String.intercalate "\n\n---\n\n" parts }] }

/-! ## Concrete sample data used to instantiate the proved properties -/

def sampleRule : ArchitectureRule :=
  { id := "thin-routes", name := "Thin Routes", category := "routes-and-controllers",
    description := "Keep route handlers thin.", rationale := "Less logic in routes.",
    examples := [], tags := ["routes", "thin"], cleanCodeRefs := [], source := none }

def sampleRule2 : ArchitectureRule :=
  { id := "fat-routes", name := "Fat Routes", category := "routes-and-controllers",
    description := "A second sample.", rationale := "None.",
    examples := [], tags := ["routes"], cleanCodeRefs := [], source := none }

/-! ## Helper lemmas -/

theorem foldl_add_sum {α : Type} (g : α → Int) (l : List α) (s : Int) :
    l.foldl (fun acc x => acc + g x) s = s + (l.map g).sum := by
  induction l generalizing s with
  | nil => simp
  | cons a t ih => simp [ih, add_assoc]

theorem tags_foldl (q : String) (tags : List String) (s : Int) :
    tags.foldl (fun score tag =>
        if tag = q then score + SCORE_WEIGHTS.TAG_EXACT
        else if jsIncludes tag q || jsIncludes q tag then
          score + SCORE_WEIGHTS.TAG_PARTIAL
        else score) s =
      s + (tags.map (fun tag =>
        if tag = q then SCORE_WEIGHTS.TAG_EXACT
        else if jsIncludes tag q || jsIncludes q tag then SCORE_WEIGHTS.TAG_PARTIAL
        else 0)).sum := by
  have hbody : (fun (score : Int) (tag : String) =>
      if tag = q then score + SCORE_WEIGHTS.TAG_EXACT
      else if jsIncludes tag q || jsIncludes q tag then
        score + SCORE_WEIGHTS.TAG_PARTIAL
      else score) = (fun score tag => score +
        (if tag = q then SCORE_WEIGHTS.TAG_EXACT
         else if jsIncludes tag q || jsIncludes q tag then SCORE_WEIGHTS.TAG_PARTIAL
         else 0)) := by
    funext score tag
    by_cases h1 : tag = q
    · simp [h1]
    · by_cases h2 : jsIncludes tag q || jsIncludes q tag <;> simp [h1, h2]
  rw [hbody, foldl_add_sum]

theorem rules_id_lower : ∀ r ∈ RULES, jsToLower r.id = r.id := by decide

theorem aps_id_lower : ∀ a ∈ ANTI_PATTERNS, jsToLower a.id = a.id := by decide

/-- C1: the query scorer agrees with the spec's additive rule system on
every entry whose stored id is already lowercase — as every catalog id
is — for every query: an exact (case-insensitive, trimmed) id match is
exactly 100 with nothing else contributing, otherwise the name (80),
per-tag (70 exact / 50 cross-containment), description (30) and
category (20) contributions are summed. -/
theorem scoreRuleByQuery_matches_spec :
    (∀ (rule : ArchitectureRule) (query : String), jsToLower rule.id = rule.id →
      scoreRuleByQuery rule query = specScoreRuleByQuery rule query) ∧
    (∀ rule ∈ RULES, ∀ query : String,
      scoreRuleByQuery rule query = specScoreRuleByQuery rule query) ∧
    (∀ ap ∈ antiPatternsAsRules ANTI_PATTERNS, ∀ query : String,
      scoreRuleByQuery ap query = specScoreRuleByQuery ap query) := by
  have main : ∀ (rule : ArchitectureRule) (query : String), jsToLower rule.id = rule.id →
      scoreRuleByQuery rule query = specScoreRuleByQuery rule query := by
    intro rule query h
    simp only [scoreRuleByQuery, specScoreRuleByQuery, normalizeQuery, h]
    by_cases hid : rule.id = jsTrim (jsToLower query)
    · simp [hid, SCORE_WEIGHTS]
    · rw [if_neg hid, if_neg hid, tags_foldl]
      by_cases hn : jsIncludes (jsToLower rule.name) (jsTrim (jsToLower query)) = true <;>
        by_cases hd : jsIncludes (jsToLower rule.description) (jsTrim (jsToLower query)) = true <;>
        by_cases hc : jsIncludes rule.category (jsTrim (jsToLower query)) = true <;>
        simp [hn, hd, hc, SCORE_WEIGHTS]
  refine ⟨main, fun rule hr query => main rule query (rules_id_lower rule hr), ?_⟩
  intro ap hap query
  rcases List.mem_map.mp hap with ⟨a, ha, rfl⟩
  exact main _ query (aps_id_lower a ha)

/-- C1 witness: the agreement evaluated at a concrete entry and query,
and at the first rule of the catalog. -/
theorem scoreRuleByQuery_matches_spec_witness :
    scoreRuleByQuery sampleRule "  THIN " = specScoreRuleByQuery sampleRule "  THIN " ∧
    scoreRuleByQuery (RULES.get ⟨0, Nat.zero_lt_succ _⟩) "Domain" =
      specScoreRuleByQuery (RULES.get ⟨0, Nat.zero_lt_succ _⟩) "Domain" :=
  ⟨scoreRuleByQuery_matches_spec.1 sampleRule "  THIN " (by decide),
   scoreRuleByQuery_matches_spec.2.1 (RULES.get ⟨0, Nat.zero_lt_succ _⟩)
     (List.get_mem RULES 0 _) "Domain"⟩

/-- C4: token scoring is additive: it is the sum of the single-query
scores of the tokens plus `categoryBoosts[category] * 15` (0 when the
category is absent), in particular for the token set
`\x7b"boundary", "coupling"\x7d`. -/
theorem scoreRuleByTokens_additive :
    (∀ (rule : ArchitectureRule) (tokens : List String)
        (categoryBoosts : List (String × Int)),
      scoreRuleByTokens rule tokens categoryBoosts =
        (tokens.map (scoreRuleByQuery rule)).sum +
          ((mapGet categoryBoosts rule.category).getD 0) * 15) ∧
    (∀ (rule : ArchitectureRule) (categoryBoosts : List (String × Int)),
      scoreRuleByTokens rule ["boundary", "coupling"] categoryBoosts =
        (scoreRuleByQuery rule "boundary" + scoreRuleByQuery rule "coupling") +
          ((mapGet categoryBoosts rule.category).getD 0) * 15) := by
  constructor
  · intro rule tokens b
    simp [scoreRuleByTokens, foldl_add_sum, CATEGORY_BOOST_MULTIPLIER]
  · intro rule b
    simp [scoreRuleByTokens, foldl_add_sum, CATEGORY_BOOST_MULTIPLIER, add_assoc]

theorem rankRules_pairs_mem {rules : List ArchitectureRule}
    {scoreFn : ArchitectureRule → Int} {p : ArchitectureRule × Int}
    (hp : p ∈ (rules.map (fun rule => (rule, scoreFn rule))).filter
      (fun p => decide (0 < p.2))) :
    p.2 = scoreFn p.1 ∧ 0 < p.2 := by
  rcases List.mem_filter.mp hp with ⟨hmem, hpos⟩
  rcases List.mem_map.mp hmem with ⟨r, _, rfl⟩
  exact ⟨rfl, of_decide_eq_true hpos⟩

/-- C3: the ranker never returns an entry scoring 0, returns at most as
many entries as it was given, and lists them in non-increasing score
order.  (The embedding is purely functional, so the input list is
untouched by construction, as `rank` leaves its argument unmutated.) -/
theorem rankRules_spec :
    ∀ (rules : List ArchitectureRule) (scoreFn : ArchitectureRule → Int),
      (rankRules rules scoreFn).length ≤ rules.length ∧
      (∀ r ∈ rankRules rules scoreFn, scoreFn r ≠ 0) ∧
      (rankRules rules scoreFn).Pairwise (fun a b => scoreFn b ≤ scoreFn a) := by
  intro rules f
  refine ⟨?_, ?_, ?_⟩
  · calc (rankRules rules f).length
        = ((rules.map (fun rule => (rule, f rule))).filter
            (fun p => decide (0 < p.2))).length := by
          simp [rankRules]
      _ ≤ (rules.map (fun rule => (rule, f rule))).length :=
          List.length_filter_le _ _
      _ = rules.length := List.length_map _ _
  · intro r hr
    rcases List.mem_map.mp hr with ⟨p, hpmem, rfl⟩
    rcases rankRules_pairs_mem (List.mem_mergeSort.mp hpmem) with ⟨hscore, hpos⟩
    omega
  · have hsorted := @List.sorted_mergeSort (ArchitectureRule × Int)
      (fun a b => decide (b.2 ≤ a.2))
      (fun a b c hab hbc => by
        simp only [decide_eq_true_eq] at *
        omega)
      (fun a b => by simp [Int.le_total])
      ((rules.map (fun rule => (rule, f rule))).filter (fun p => decide (0 < p.2)))
    rw [rankRules, List.pairwise_map]
    refine hsorted.imp_of_mem ?_
    intro a b ha hb hle
    simp only [decide_eq_true_eq] at hle
    rw [(rankRules_pairs_mem (List.mem_mergeSort.mp ha)).1,
        (rankRules_pairs_mem (List.mem_mergeSort.mp hb)).1] at hle
    exact hle

/-- C3 witness: on a concrete two-entry list scored by tag count, a
returned entry has a non-zero score and the output is no longer than the
input. -/
theorem rankRules_spec_witness :
    (fun r : ArchitectureRule => (r.tags.length : Int)) sampleRule ≠ 0 ∧
    (rankRules [sampleRule, sampleRule2]
      (fun r => (r.tags.length : Int))).length ≤ 2 := by
  constructor
  · refine (rankRules_spec [sampleRule, sampleRule2]
      (fun r => (r.tags.length : Int))).2.1 sampleRule ?_
    refine List.mem_map.mpr ⟨(sampleRule, 2), List.mem_mergeSort.mpr ?_, rfl⟩
    decide
  · exact (rankRules_spec [sampleRule, sampleRule2]
      (fun r => (r.tags.length : Int))).1

theorem antiPatternsAsRules_length (l : List AntiPattern) :
    (antiPatternsAsRules l).length = l.length := by
  simp [antiPatternsAsRules]

theorem anti_patterns_length_pos : 0 < ANTI_PATTERNS.length := by decide

/-- C9: widening anti-patterns to rules copies `description` into
`rationale`, leaves every other field unchanged, adds no `source`, and
preserves the length (and, position by position, the order) of the
list. -/
theorem antiPatternsAsRules_fields :
    ∀ (l : List AntiPattern) (i : Nat) (h : i < l.length),
      (antiPatternsAsRules l).length = l.length ∧
      ((antiPatternsAsRules l).get ⟨i, (antiPatternsAsRules_length l).symm ▸ h⟩ =
        { id := (l.get ⟨i, h⟩).id, name := (l.get ⟨i, h⟩).name,
          category := (l.get ⟨i, h⟩).category,
          description := (l.get ⟨i, h⟩).description,
          rationale := (l.get ⟨i, h⟩).description,
          examples := (l.get ⟨i, h⟩).examples, tags := (l.get ⟨i, h⟩).tags,
          cleanCodeRefs := (l.get ⟨i, h⟩).cleanCodeRefs, source := none }) := by
  intro l i h
  refine ⟨antiPatternsAsRules_length l, ?_⟩
  simp [antiPatternsAsRules, List.get_eq_getElem]

/-- C9 witness: the first widened anti-pattern of the catalog carries its
description as rationale and keeps its id. -/
theorem antiPatternsAsRules_fields_witness :
    (antiPatternsAsRules ANTI_PATTERNS).get
        ⟨0, (antiPatternsAsRules_length ANTI_PATTERNS).symm ▸ anti_patterns_length_pos⟩ =
      { id := (ANTI_PATTERNS.get ⟨0, anti_patterns_length_pos⟩).id,
        name := (ANTI_PATTERNS.get ⟨0, anti_patterns_length_pos⟩).name,
        category := (ANTI_PATTERNS.get ⟨0, anti_patterns_length_pos⟩).category,
        description := (ANTI_PATTERNS.get ⟨0, anti_patterns_length_pos⟩).description,
        rationale := (ANTI_PATTERNS.get ⟨0, anti_patterns_length_pos⟩).description,
        examples := (ANTI_PATTERNS.get ⟨0, anti_patterns_length_pos⟩).examples,
        tags := (ANTI_PATTERNS.get ⟨0, anti_patterns_length_pos⟩).tags,
        cleanCodeRefs := (ANTI_PATTERNS.get ⟨0, anti_patterns_length_pos⟩).cleanCodeRefs,
        source := none } :=
  (antiPatternsAsRules_fields ANTI_PATTERNS 0 anti_patterns_length_pos).2

/-- C7 counterexample: on the 10-character string "abcd efghi" with limit
5 the result is "abcd..." — the trailing space of the 5-character prefix
is trimmed away, so the part before the ellipsis has 4 characters, not
5. -/
theorem truncateDescription_not_five_chars :
    ("abcd efghi" : String).length = 10 ∧
    truncateDescription "abcd efghi" 5 = "abcd..." ∧
    ¬ ((truncateDescription "abcd efghi" 5).length = 5 + ("..." : String).length) := by
  decide

/-- C7 (amended): strings within the limit are returned unchanged;
over-limit strings become the limit-length prefix with trailing
whitespace trimmed plus the ellipsis marker; and for a 10-character
string with limit 5 whose 5-character prefix is untouched by
trailing-whitespace trimming, the result is exactly that 5-character
prefix plus the ellipsis marker. -/
theorem truncateDescription_spec :
    ∀ (s : String) (n : Nat),
      (s.length ≤ n → truncateDescription s n = s) ∧
      (n < s.length → truncateDescription s n = jsTrimEnd (jsSlice0 s n) ++ "...") ∧
      (s.length = 10 → jsTrimEnd (jsSlice0 s 5) = jsSlice0 s 5 →
        truncateDescription s 5 = jsSlice0 s 5 ++ "..." ∧ (jsSlice0 s 5).length = 5) := by
  intro s n
  refine ⟨?_, ?_, ?_⟩
  · intro h; simp [truncateDescription, h]
  · intro h; simp [truncateDescription, Nat.not_le.mpr h]
  · intro h10 htrim
    have h5 : ¬ (s.length ≤ 5) := by omega
    refine ⟨by simp [truncateDescription, h5, htrim], ?_⟩
    have : s.data.length = 10 := h10
    simp [jsSlice0, String.length, this]

/-- C7 witness: the three clauses evaluated at concrete strings. -/
theorem truncateDescription_spec_witness :
    truncateDescription "abc" 5 = "abc" ∧
    truncateDescription "abcdefghij" 5 = jsTrimEnd (jsSlice0 "abcdefghij" 5) ++ "..." ∧
    (truncateDescription "abcdefghij" 5 = jsSlice0 "abcdefghij" 5 ++ "..." ∧
      (jsSlice0 "abcdefghij" 5).length = 5) :=
  ⟨(truncateDescription_spec "abc" 5).1 (by decide),
   (truncateDescription_spec "abcdefghij" 5).2.1 (by decide),
   (truncateDescription_spec "abcdefghij" 5).2.2 (by decide) (by decide)⟩

/-- C5: the result formatter agrees with the spec's description: rules
are concatenated before anti-patterns and truncated to the maximum
total; an empty truncation returns exactly the empty message and nothing
else; otherwise the first 3 entries are detailed markdown blocks and the
remainder (up to the maximum) a summary list, whose overflow header
appears only when that remainder is non-empty. -/
theorem formatSearchResults_matches_spec :
    ∀ (rankedRules rankedAntiPatterns : List ArchitectureRule)
      (options : SearchFormatOptions),
      formatSearchResults rankedRules rankedAntiPatterns options =
        specFormatSearchResults rankedRules rankedAntiPatterns options := by
  intro r a o
  simp only [formatSearchResults, specFormatSearchResults, MAX_DETAILED_RESULTS]
  by_cases hall : ((r.map TaggedResult.rule) ++ (a.map TaggedResult.antiPattern)).take
      (o.maxTotal.getD MAX_TOTAL_RESULTS) = []
  · simp [hall]
  · have hlen : ¬ (((r.map TaggedResult.rule) ++ (a.map TaggedResult.antiPattern)).take
        (o.maxTotal.getD MAX_TOTAL_RESULTS)).length = 0 := by
      simpa [List.length_eq_zero] using hall
    rw [if_neg hlen, if_neg hall]
    have hle : (((r.map TaggedResult.rule) ++ (a.map TaggedResult.antiPattern)).take
        (o.maxTotal.getD MAX_TOTAL_RESULTS)).length ≤ o.maxTotal.getD MAX_TOTAL_RESULTS :=
      List.length_take_le _ _
    have hdrop : ((((r.map TaggedResult.rule) ++ (a.map TaggedResult.antiPattern)).take
        (o.maxTotal.getD MAX_TOTAL_RESULTS)).drop 3).take
          (o.maxTotal.getD MAX_TOTAL_RESULTS - 3) =
        (((r.map TaggedResult.rule) ++ (a.map TaggedResult.antiPattern)).take
          (o.maxTotal.getD MAX_TOTAL_RESULTS)).drop 3 := by
      apply List.take_of_length_le
      simp only [List.length_drop]
      omega
    rw [hdrop]
    simp only [gt_iff_lt, List.length_pos, ne_eq]

/-- C6: the `search-rule` handler scores every rule and widened
anti-pattern with single-query scoring and formats with the message
`No rules or anti-patterns found for "<query>".`, header `Other matches`
and a maximum of 10 results; the `search-by-context` handler tokenizes,
removes stop words, scores by tokens with the detected category boosts
and formats with the message `No rules found matching that context.`,
header `Also relevant` and a maximum of 8 results. -/
theorem searchTools_config :
    (∀ query, searchRuleHandler query =
      formatSearchResults
        (rankRules RULES (fun rule => scoreRuleByQuery rule query))
        (rankRules (antiPatternsAsRules ANTI_PATTERNS)
          (fun ap => scoreRuleByQuery ap query))
        { emptyMessage := "No rules or anti-patterns found for \"" ++ query ++ "\"."
          remainingHeader := "Other matches"
          maxTotal := some 10 }) ∧
    (∀ context, searchByContextHandler context =
      formatSearchResults
        (rankRules RULES (fun rule => scoreRuleByTokens rule
          (removeStopWords (tokenize context))
          (detectCategoryBoosts (removeStopWords (tokenize context)))))
        (rankRules (antiPatternsAsRules ANTI_PATTERNS) (fun ap => scoreRuleByTokens ap
          (removeStopWords (tokenize context))
          (detectCategoryBoosts (removeStopWords (tokenize context)))))
        { emptyMessage := "No rules found matching that context."
          remainingHeader := "Also relevant"
          maxTotal := some 8 }) ∧
    MAX_TOTAL_RESULTS = 10 ∧ MAX_CONTEXT_RESULTS = 8 :=
  ⟨fun _ => rfl, fun _ => rfl, rfl, rfl⟩

theorem jsIncludes_empty (s : String) : jsIncludes s "" = true := by
  have h : ("" : String).data = [] := rfl
  simp [jsIncludes, h]

theorem rules_length_pos : 0 < RULES.length := by decide

/-- C2 counterexample: the first catalog rule scored against the empty
query yields 380, not 0 — every `includes`-style check succeeds on the
empty string, so the name, five tag, description and category rules all
fire. -/
theorem scoreRuleByQuery_empty_nonzero :
    scoreRuleByQuery (RULES.get ⟨0, rules_length_pos⟩) "" = 380 ∧
    ¬ (scoreRuleByQuery (RULES.get ⟨0, rules_length_pos⟩) "" = 0) := by
  decide

/-- C2 (amended): an empty token set scores 0 (its category-boost map is
empty and contributes nothing), but an empty query does not score 0: for
every entry whose id is non-empty the empty-substring checks of name,
description and category all succeed and every tag cross-contains the
empty query, giving 80 + (70 per empty tag, 50 per other tag) + 30 +
20. -/
theorem emptyQuery_scoring :
    (∀ E : ArchitectureRule, E.id ≠ "" →
      scoreRuleByQuery E "" =
        80 + (E.tags.map (fun t => if t = "" then (70 : Int) else 50)).sum + 30 + 20) ∧
    (∀ E : ArchitectureRule, scoreRuleByTokens E [] (detectCategoryBoosts []) = 0) := by
  constructor
  · intro E hid
    have hempty : jsTrim (jsToLower "") = "" := rfl
    simp only [scoreRuleByQuery, hempty]
    rw [if_neg hid, tags_foldl]
    simp [jsIncludes_empty, SCORE_WEIGHTS]
  · intro E
    simp [scoreRuleByTokens, detectCategoryBoosts, mapGet]

/-- C2 witness: the amended clauses evaluated at a concrete entry. -/
theorem emptyQuery_scoring_witness :
    scoreRuleByQuery sampleRule "" =
      80 + (sampleRule.tags.map (fun t => if t = "" then (70 : Int) else 50)).sum + 30 + 20 :=
  emptyQuery_scoring.1 sampleRule (by decide)

/-- C10: every id in the static catalogs is non-empty, lowercase
(unchanged by lowering) and whitespace-free; ids are pairwise distinct
within each catalog; and consequently comparing the raw stored id with
the lowercased, trimmed query coincides with the case-insensitive
comparison the spec's exact-id rule describes. -/
theorem catalog_ids_invariant :
    (∀ s ∈ RULES.map ArchitectureRule.id,
        s ≠ "" ∧ jsToLower s = s ∧ s.data.all (fun c => !(isJsWhitespace c))) ∧
    (∀ s ∈ ANTI_PATTERNS.map AntiPattern.id,
        s ≠ "" ∧ jsToLower s = s ∧ s.data.all (fun c => !(isJsWhitespace c))) ∧
    (RULES.map ArchitectureRule.id).Nodup ∧
    (ANTI_PATTERNS.map AntiPattern.id).Nodup ∧
    (∀ r ∈ RULES, ∀ q : String,
      (r.id = normalizeQuery q ↔ jsToLower r.id = normalizeQuery q)) ∧
    (∀ a ∈ ANTI_PATTERNS, ∀ q : String,
      (a.id = normalizeQuery q ↔ jsToLower a.id = normalizeQuery q)) := by
  refine ⟨by decide, by decide, by decide, by decide, ?_, ?_⟩
  · intro r hr q
    rw [rules_id_lower r hr]
  · intro a ha q
    rw [aps_id_lower a ha]

/-- C10 witness: the invariant evaluated at a concrete catalog id, and
the case-insensitive behaviour of the exact-id comparison at a concrete
rule and query. -/
theorem catalog_ids_invariant_witness :
    (("domain-centric-modules" : String) ≠ "" ∧
      jsToLower "domain-centric-modules" = "domain-centric-modules" ∧
      ("domain-centric-modules" : String).data.all (fun c => !(isJsWhitespace c))) ∧
    ((RULES.get ⟨0, rules_length_pos⟩).id = normalizeQuery " DOMAIN-CENTRIC-MODULES " ↔
      jsToLower (RULES.get ⟨0, rules_length_pos⟩).id =
        normalizeQuery " DOMAIN-CENTRIC-MODULES ") :=
  ⟨catalog_ids_invariant.1 "domain-centric-modules" (by decide),
   catalog_ids_invariant.2.2.2.2.1 (RULES.get ⟨0, rules_length_pos⟩)
     (List.get_mem RULES 0 rules_length_pos) " DOMAIN-CENTRIC-MODULES "⟩

theorem char_le_iff {a b : Char} : a ≤ b ↔ a.toNat ≤ b.toNat := by
  rw [Char.le_def, UInt32.le_def, BitVec.le_def]
  exact Iff.rfl

theorem char_toNat_ofNat_lt {n : Nat} (h : n < 55296) : (Char.ofNat n).toNat = n := by
  have hv : n.isValidChar := Or.inl h
  unfold Char.ofNat
  rw [dif_pos hv]
  rfl

theorem jsCharToLower_idem (c : Char) :
    jsCharToLower (jsCharToLower c) = jsCharToLower c := by
  unfold jsCharToLower
  by_cases h : 'A' ≤ c ∧ c ≤ 'Z'
  · rw [if_pos h, if_neg]
    intro h2
    have h65 : ('A' : Char).toNat ≤ c.toNat := char_le_iff.mp h.1
    have h90 : c.toNat ≤ ('Z' : Char).toNat := char_le_iff.mp h.2
    have hA : ('A' : Char).toNat = 65 := rfl
    have hZ : ('Z' : Char).toNat = 90 := rfl
    have hlt : c.toNat + 32 < 55296 := by omega
    have ht : (Char.ofNat (c.toNat + 32)).toNat = c.toNat + 32 := char_toNat_ofNat_lt hlt
    have hub := char_le_iff.mp h2.2
    rw [ht, hZ] at hub
    omega
  · rw [if_neg h, if_neg h]

theorem map_id_of_mem {f : Char → Char} :
    ∀ {l : List Char}, (∀ c ∈ l, f c = c) → l.map f = l
  | [], _ => rfl
  | a :: t, h => by
    have ha := h a (List.mem_cons_self a t)
    have ht := map_id_of_mem (fun c hc => h c (List.mem_cons_of_mem a hc))
    simp [ha, ht]

theorem dropWhile_idem {p : Char → Bool} :
    ∀ (l : List Char), (l.dropWhile p).dropWhile p = l.dropWhile p
  | [] => rfl
  | a :: t => by
    by_cases h : p a
    · simp [List.dropWhile_cons, h, dropWhile_idem t]
    · simp [List.dropWhile_cons, h]

theorem dropWhile_head_not {p : Char → Bool} :
    ∀ {l m : List Char} {a : Char}, l.dropWhile p = a :: m → p a = false := by
  intro l
  induction l with
  | nil => intro m a h; simp at h
  | cons b t ih =>
    intro m a h
    by_cases hb : p b
    · rw [List.dropWhile_cons, if_pos hb] at h
      exact ih h
    · rw [List.dropWhile_cons, if_neg hb] at h
      cases h
      simpa using hb

theorem prefix_dropWhile_fix {p : Char → Bool} {m l : List Char}
    (h : m <+: l.dropWhile p) : m.dropWhile p = m := by
  cases m with
  | nil => rfl
  | cons a m' =>
    rcases h with ⟨t, ht⟩
    have ha : p a = false := dropWhile_head_not (l := l) (m := m' ++ t) ht.symm
    rw [List.dropWhile_cons, if_neg (by simp [ha])]

theorem jsTrim_idem (s : String) : jsTrim (jsTrim s) = jsTrim s := by
  unfold jsTrim
  have hdata : (String.mk (((s.data.dropWhile isJsWhitespace).reverse.dropWhile
      isJsWhitespace).reverse)).data =
      ((s.data.dropWhile isJsWhitespace).reverse.dropWhile isJsWhitespace).reverse := rfl
  rw [hdata]
  have hpre : ((s.data.dropWhile isJsWhitespace).reverse.dropWhile
      isJsWhitespace).reverse <+: s.data.dropWhile isJsWhitespace := by
    have h1 := List.reverse_prefix.mpr
      (List.dropWhile_suffix isJsWhitespace :
        List.dropWhile isJsWhitespace ((s.data.dropWhile isJsWhitespace).reverse) <:+
          (s.data.dropWhile isJsWhitespace).reverse)
    simpa using h1
  rw [prefix_dropWhile_fix hpre, List.reverse_reverse,
    dropWhile_idem ((s.data.dropWhile isJsWhitespace).reverse)]

theorem jsToLower_fixes_trim (q : String) :
    jsToLower (jsTrim (jsToLower q)) = jsTrim (jsToLower q) := by
  unfold jsToLower jsTrim
  have hmem : ∀ c ∈ (((q.data.map jsCharToLower).dropWhile
      isJsWhitespace).reverse.dropWhile isJsWhitespace).reverse,
      jsCharToLower c = c := by
    intro c hc
    rw [List.mem_reverse] at hc
    have hc2 := (List.dropWhile_sublist isJsWhitespace).mem hc
    rw [List.mem_reverse] at hc2
    have hc3 := (List.dropWhile_sublist isJsWhitespace).mem hc2
    rcases List.mem_map.mp hc3 with ⟨b, _, rfl⟩
    exact jsCharToLower_idem b
  exact congrArg String.mk (map_id_of_mem hmem)

theorem normalizeQuery_idem (q : String) :
    normalizeQuery (normalizeQuery q) = normalizeQuery q := by
  unfold normalizeQuery
  rw [jsToLower_fixes_trim, jsTrim_idem]

theorem scoreRuleByQuery_congr (rule : ArchitectureRule) {q1 q2 : String}
    (h : normalizeQuery q1 = normalizeQuery q2) :
    scoreRuleByQuery rule q1 = scoreRuleByQuery rule q2 := by
  unfold normalizeQuery at h
  simp only [scoreRuleByQuery, h]

/-- C8: scoring is invariant under query normalization — replacing a
query by its lowercased, trimmed form changes no entry's score, because
the scorer normalizes its query and normalization is idempotent. -/
theorem scoreRuleByQuery_normalization_invariant :
    ∀ (rule : ArchitectureRule) (q : String),
      scoreRuleByQuery rule (jsTrim (jsToLower q)) = scoreRuleByQuery rule q :=
  fun rule q => scoreRuleByQuery_congr rule (normalizeQuery_idem q)

end MonolithMcp
